import Mathlib

/-!
Shallow embedding of the attention/event-detection engine
(`src/focus_detection/focus_analyzer.py`, `src/focus_detection/eye_analysis.py`)
and the scoring engine (`src/scoring/productivity_score.py`,
`src/scoring/data_structures.py`).

Real-valued quantities of the Python code (timestamps, angles, ratios,
scores) are modelled as exact rationals `ℚ`; the Euclidean geometry of the
eye-aspect-ratio, which genuinely needs square roots, is modelled over `ℝ`.
Python `None` becomes `Option`; Python truthiness of a float (`if x:`,
false for both `None` and `0.0`) is modelled explicitly where the source
relies on it.
-/

/-- Clamp, Python's `min(max(x, lo), hi)`. -/
def clampQ (x lo hi : ℚ) : ℚ := min (max x lo) hi

/-- Attention vocabulary produced by the detection engine
(`focus_analyzer.py` lines 382-387). -/
inductive Attention where
  | attentive
  | eyes_closed
  | looking_away
  deriving DecidableEq, Repr

/-- Axis-aligned bounding box `(x1, y1, x2, y2)`. -/
structure Box where
  x1 : ℚ
  y1 : ℚ
  x2 : ℚ
  y2 : ℚ
  deriving DecidableEq, Repr

/-- `max(0, x2-x1) * max(0, y2-y1)`, the area expression used inside `_iou`
(`focus_analyzer.py` lines 188-189). -/
def boxArea (b : Box) : ℚ := max 0 (b.x2 - b.x1) * max 0 (b.y2 - b.y1)

/-- `FocusAnalyzer.analyze_frame._iou` (`focus_analyzer.py` lines 177-193):
standard intersection-over-union, returning `0.0` when the union is
non-positive. -/
def iou (a b : Box) : ℚ :=
  let ix1 := max a.x1 b.x1
  let iy1 := max a.y1 b.y1
  let ix2 := min a.x2 b.x2
  let iy2 := min a.y2 b.y2
  let iw := max 0 (ix2 - ix1)
  let ih := max 0 (iy2 - iy1)
  let inter := iw * ih
  let area_a := boxArea a
  let area_b := boxArea b
  let union := area_a + area_b - inter
  if union ≤ 0 then 0 else inter / union

/-- Per-track state, the `FaceState` dataclass (`focus_analyzer.py`
lines 38-64).  The `attention_history` deque, cached landmarks/pose and the
fixed `ema_alpha` are kept where claims need them; counts are `ℕ` (they are
only ever initialised to 0 and incremented). -/
structure FaceState where
  bbox : Box
  prev_eyes_closed : Bool := false
  prev_mouth_open : Bool := false
  pending_blink : Bool := false
  pending_yawn : Bool := false
  last_seen : ℚ := 0
  ema_yaw : ℚ := 0
  ema_pitch : ℚ := 0
  ema_roll : ℚ := 0
  ema_alpha : ℚ := 2/5
  blink_count : ℕ := 0
  closed_frames : ℕ := 0
  blink_start_ts : Option ℚ := none
  blink_started_attention : Option Attention := none
  last_blink_ts : ℚ := 0
  yawn_start_ts : Option ℚ := none
  yawn_started_attention : Option Attention := none
  last_yawn_ts : ℚ := 0
  yawn_count : ℕ := 0
  mouth_open_frames : ℕ := 0
  attention_history : List Attention := []
  id : Option ℕ := none
  deriving DecidableEq, Repr

/-- Blink timing constants (`FocusAnalyzer.__init__`, lines 103-105). -/
def blink_min_dur : ℚ := 3/100
/-- Maximum closure duration still counted as a blink (0.7 s). -/
def blink_max_dur : ℚ := 7/10
/-- Minimum spacing between counted blinks (0.2 s). -/
def blink_refractory : ℚ := 1/5

/-- Yawn timing constants (`FocusAnalyzer.__init__`, lines 108-110). -/
def yawn_min_dur : ℚ := 1/5
/-- Maximum mouth-open duration still counted as a yawn (3.0 s). -/
def yawn_max_dur : ℚ := 3
/-- Minimum spacing between counted yawns (0.5 s). -/
def yawn_refractory : ℚ := 1/2

/-- Python truthiness of an optional float: `if state.blink_start_ts:` is
false when the field is `None` *or* `0.0`. -/
def truthyTs (o : Option ℚ) : Bool :=
  match o with
  | none => false
  | some t => t ≠ 0

/-- Blink state machine, `focus_analyzer.py` lines 400-473: one update for
a single track given the current eye-closure boolean, the attention label
of this frame, and the current time `now`.  Debug-log writes are
best-effort side effects with no bearing on state and are omitted. -/
def blinkStep (s : FaceState) (eyes_closed : Bool) (attention : Attention)
    (now : ℚ) : FaceState :=
  let s :=
    if !s.prev_eyes_closed && eyes_closed then
      -- just closed: record start time and attention at start
      { s with closed_frames := 1
               blink_start_ts := some now
               blink_started_attention := some attention
               pending_blink := attention = .attentive }
    else if s.prev_eyes_closed && eyes_closed then
      -- still closed
      let s := { s with closed_frames := s.closed_frames + 1 }
      let s := if attention ≠ .attentive then { s with pending_blink := false } else s
      let tooLong :=
        truthyTs s.blink_start_ts &&
          (match s.blink_start_ts with
           | some t => now - t > blink_max_dur
           | none => false)
      if tooLong then { s with pending_blink := false } else s
    else if s.prev_eyes_closed && !eyes_closed then
      -- just opened: evaluate blink by duration and attention
      let duration : Option ℚ :=
        if truthyTs s.blink_start_ts then s.blink_start_ts.map (fun t => now - t)
        else none
      let s :=
        match duration with
        | some d =>
          if blink_min_dur ≤ d ∧ d ≤ blink_max_dur then
            let started_attentive := s.blink_started_attention = some Attention.attentive
            let ended_attentive := attention = Attention.attentive
            if (started_attentive ∨ ended_attentive) ∧
                now - s.last_blink_ts > blink_refractory then
              { s with blink_count := s.blink_count + 1, last_blink_ts := now }
            else s
          else s
        | none => s
      -- reset, regardless of outcome
      { s with closed_frames := 0
               pending_blink := false
               blink_start_ts := none
               blink_started_attention := none }
    else
      let s := { s with closed_frames := 0 }
      if attention ≠ .attentive then { s with pending_blink := false } else s
  { s with prev_eyes_closed := eyes_closed }

/-- Yawn state machine, `focus_analyzer.py` lines 477-544; identical shape
to the blink machine over the mouth-open signal. -/
def yawnStep (s : FaceState) (mouth_open : Bool) (attention : Attention)
    (now : ℚ) : FaceState :=
  let s :=
    if !s.prev_mouth_open && mouth_open then
      { s with mouth_open_frames := 1
               yawn_start_ts := some now
               yawn_started_attention := some attention
               pending_yawn := attention = .attentive }
    else if s.prev_mouth_open && mouth_open then
      let s := { s with mouth_open_frames := s.mouth_open_frames + 1 }
      let s := if attention ≠ .attentive then { s with pending_yawn := false } else s
      let tooLong :=
        truthyTs s.yawn_start_ts &&
          (match s.yawn_start_ts with
           | some t => now - t > yawn_max_dur
           | none => false)
      if tooLong then { s with pending_yawn := false } else s
    else if s.prev_mouth_open && !mouth_open then
      let duration : Option ℚ :=
        if truthyTs s.yawn_start_ts then s.yawn_start_ts.map (fun t => now - t)
        else none
      let s :=
        match duration with
        | some d =>
          if yawn_min_dur ≤ d ∧ d ≤ yawn_max_dur then
            let started_attentive := s.yawn_started_attention = some Attention.attentive
            let ended_attentive := attention = Attention.attentive
            if (started_attentive ∨ ended_attentive) ∧
                now - s.last_yawn_ts > yawn_refractory then
              { s with yawn_count := s.yawn_count + 1, last_yawn_ts := now }
            else s
          else s
        | none => s
      { s with mouth_open_frames := 0
               pending_yawn := false
               yawn_start_ts := none
               yawn_started_attention := none }
    else
      let s := { s with mouth_open_frames := 0 }
      if attention ≠ .attentive then { s with pending_yawn := false } else s
  { s with prev_mouth_open := mouth_open }

/-- Per-detection input to `analyze_frame`, as the analyzer consumes it.
The face detector, landmark/pose estimator and eye analyzer are external
collaborators; `analyze_frame` consumes their outputs as the raw pose and
the boolean eye-open / mouth-open signals (`focus_analyzer.py` lines
168-174, 271-272, 349, 363-365).  A malformed detection has no bbox
(`bbox is None`, line 172). -/
structure Measurement where
  bbox : Option Box
  left_open : Bool
  right_open : Bool
  mouth_open : Bool
  yaw : ℚ
  pitch : ℚ
  roll : ℚ
  deriving DecidableEq, Repr

/-- Analyzer-level mutable state: the track map (`self.states`, insertion
ordered as a Python dict) and the id counter (`self._next_state_id`),
`focus_analyzer.py` lines 117-118. -/
structure AnalyzerState where
  states : List (ℕ × FaceState)
  next_state_id : ℕ
  deriving DecidableEq, Repr

/-- Python-dict key membership. -/
def hasKey (xs : List (ℕ × FaceState)) (k : ℕ) : Bool :=
  xs.any (fun p => p.1 = k)

/-- Python-dict lookup `self.states[sid]`. -/
def dictGet (xs : List (ℕ × FaceState)) (k : ℕ) : Option FaceState :=
  (xs.find? (fun p => p.1 = k)).map Prod.snd

/-- Python-dict assignment `d[k] = v`: replace in place if the key exists,
else append (insertion order preserved). -/
def dictSet (xs : List (ℕ × FaceState)) (k : ℕ) (v : FaceState) :
    List (ℕ × FaceState) :=
  if hasKey xs k then xs.map (fun p => if p.1 = k then (k, v) else p)
  else xs ++ [(k, v)]

/-- The best-match loop of `analyze_frame` (`focus_analyzer.py` lines
195-204): scan the live tracks in insertion order keeping the strictly
best IoU, starting from `best_id = None`, `best_iou = 0.0`.  (The
`s.last_seen is None` guard of line 199 can never fire: `last_seen` is
always a float.) -/
def bestMatch (states : List (ℕ × FaceState)) (bbox : Box) : Option ℕ × ℚ :=
  states.foldl
    (fun acc p =>
      let i := iou bbox p.2.bbox
      if i > acc.2 then (some p.1, i) else acc)
    (none, 0)

/-- Match-acceptance threshold of line 207. -/
def iou_accept_threshold : ℚ := 35/100

/-- Track association for one detection (`focus_analyzer.py` lines
206-218): accept the best match only if its IoU exceeds 0.35, updating the
matched track's bbox and last-seen; otherwise create a fresh `FaceState`
(all counters zeroed by the dataclass defaults) under the next sequential
id.  Returns the id of the matched-or-created track. -/
def associate (st : AnalyzerState) (bbox : Box) (timestamp : ℚ) :
    ℕ × AnalyzerState :=
  let bm := bestMatch st.states bbox
  match bm.1 with
  | some sid =>
    if bm.2 > iou_accept_threshold then
      let states := (st.states).map
        (fun p => if p.1 = sid then
            (p.1, { p.2 with bbox := bbox, last_seen := timestamp })
          else p)
      (sid, { st with states := states })
    else
      let sid := st.next_state_id
      let s : FaceState := { bbox := bbox, id := some sid, last_seen := timestamp }
      (sid, { states := dictSet st.states sid s, next_state_id := sid + 1 })
  | none =>
    let sid := st.next_state_id
    let s : FaceState := { bbox := bbox, id := some sid, last_seen := timestamp }
    (sid, { states := dictSet st.states sid s, next_state_id := sid + 1 })

/-- Attention thresholds (`FocusAnalyzer.__init__` lines 98-99, defaults
`yaw_threshold = pitch_threshold = 15.0`). -/
def yaw_threshold : ℚ := 15
/-- Default pitch threshold (15 degrees). -/
def pitch_threshold : ℚ := 15

/-- Bounded append to the attention-history deque (`maxlen=150`,
`focus_analyzer.py` line 61): append right, drop from the left when full. -/
def pushHistory (h : List Attention) (a : Attention) : List Attention :=
  let h := h ++ [a]
  if h.length > 150 then h.drop (h.length - 150) else h

/-- First half of the per-track frame update (`focus_analyzer.py` lines
362-389): EMA pose smoothing (lazily initialised when the stored EMA
triple is all zero), attention classification, attention-history append.
Returns the updated state with the inferred attention label. -/
def poseAttnUpdate (s : FaceState) (m : Measurement) : FaceState × Attention :=
  -- smoothing (EMA) on pose, lines 367-376
  let s :=
    if s.ema_yaw = 0 ∧ s.ema_pitch = 0 ∧ s.ema_roll = 0 then
      { s with ema_yaw := m.yaw, ema_pitch := m.pitch, ema_roll := m.roll }
    else
      let a := s.ema_alpha
      { s with ema_yaw := a * m.yaw + (1 - a) * s.ema_yaw
               ema_pitch := a * m.pitch + (1 - a) * s.ema_pitch
               ema_roll := a * m.roll + (1 - a) * s.ema_roll }
  -- attention inference, lines 379-387
  let both_closed := !m.left_open && !m.right_open
  let looking_forward :=
    |s.ema_yaw| < yaw_threshold ∧ |s.ema_pitch| < pitch_threshold
  let attention : Attention :=
    if ¬ looking_forward then .looking_away
    else if both_closed then .eyes_closed
    else .attentive
  ({ s with attention_history := pushHistory s.attention_history attention },
    attention)

/-- Per-track frame update after association (`focus_analyzer.py` lines
362-544): pose smoothing and attention classification, then the blink and
yawn state machines over the eye-closure / mouth-open signals. -/
def detUpdate (s : FaceState) (m : Measurement) (now : ℚ) : FaceState :=
  let pa := poseAttnUpdate s m
  let eyes_closed := !m.left_open && !m.right_open
  yawnStep (blinkStep pa.1 eyes_closed pa.2 now) m.mouth_open pa.2 now

/-- One iteration of the detection loop (`focus_analyzer.py` lines
168-218, 362-544): skip a detection without a bbox, otherwise associate it
to a track and run the per-track update on that track. -/
def processDetection (st : AnalyzerState) (m : Measurement) (now : ℚ) :
    AnalyzerState :=
  match m.bbox with
  | none => st
  | some bbox =>
    let r := associate st bbox now
    let sid := r.1
    let st := r.2
    let upd := fun (p : ℕ × FaceState) =>
      if p.1 = sid then (p.1, detUpdate p.2 m now) else p
    { st with states := st.states.map upd }

/-- The prune sweep (`focus_analyzer.py` lines 619-631): drop every track
with `s.last_seen and (timestamp - s.last_seen) > 2.0` (note the Python
truthiness: a track with `last_seen == 0.0` is never pruned). -/
def pruneStates (st : AnalyzerState) (timestamp : ℚ) : AnalyzerState :=
  { st with states :=
      st.states.filter (fun p => ¬ (p.2.last_seen ≠ 0 ∧ timestamp - p.2.last_seen > 2)) }

/-- State evolution of `FocusAnalyzer.analyze_frame` (`focus_analyzer.py`
lines 133-645) for one frame at time `timestamp`: when the detection list
is empty the function returns at line 163, *before* the prune sweep;
otherwise every detection is processed in order and then stale tracks are
pruned.  (The per-detection `now_ts = time.time()` of line 400 is the same
frame instant as `timestamp`, modelled as one clock value.) -/
def analyzeFrame (st : AnalyzerState) (dets : List Measurement)
    (timestamp : ℚ) : AnalyzerState :=
  if dets.isEmpty then st
  else
    let st := dets.foldl (fun st m => processDetection st m timestamp) st
    pruneStates st timestamp

/-! ## Scoring layer (`src/scoring/data_structures.py`, `src/scoring/productivity_score.py`) -/

/-- `AttentionState` enum of `scoring/data_structures.py` lines 13-17. -/
inductive AttentionState where
  | ATTENTIVE
  | LOOKING_AWAY
  | UNKNOWN
  deriving DecidableEq, Repr

/-- Python `str.lower()`, character-wise (kept kernel-reducible). -/
def strLower (s : String) : String := ⟨s.data.map Char.toLower⟩

/-- The attention-string conversion of `FrameData.from_pipeline_output`
(`data_structures.py` lines 68-72 and 98-102): lowercase the string, try
the `AttentionState` enum constructor, and collapse the `ValueError` of
any unrecognised value to `UNKNOWN`. -/
def attentionFromStr (s : String) : AttentionState :=
  let t := strLower s
  if t = "attentive" then .ATTENTIVE
  else if t = "looking_away" then .LOOKING_AWAY
  else if t = "unknown" then .UNKNOWN
  else .UNKNOWN

/-- `FaceMetrics` of `data_structures.py` lines 20-38 (the optional gaze
fields, which the scoring engine never reads, are omitted). -/
structure FaceMetrics where
  bbox : Box
  confidence : ℚ
  yaw : ℚ
  pitch : ℚ
  roll : ℚ
  left_ear : ℚ
  right_ear : ℚ
  eyes_open_left : Bool
  eyes_open_right : Bool
  blink_count : ℤ
  mar : ℚ
  mouth_open : Bool
  yawn_count : ℤ
  attention : AttentionState
  deriving DecidableEq, Repr

/-- A face dictionary as handed from the detection pipeline to
`FrameData.from_pipeline_output`; `attention` is optional because the
source defaults a missing key to `"unknown"` (line 68). -/
structure PipelineFace where
  bbox : Box
  confidence : ℚ
  yaw : ℚ
  pitch : ℚ
  roll : ℚ
  left_ear : ℚ
  right_ear : ℚ
  eyes_open_left : Bool
  eyes_open_right : Bool
  blink_count : ℤ
  mar : ℚ
  mouth_open : Bool
  yawn_count : ℤ
  attention : Option String
  deriving DecidableEq, Repr

/-- Per-face conversion performed by `FrameData.from_pipeline_output`
(`data_structures.py` lines 67-92 / 96-121). -/
def fromPipelineFace (pf : PipelineFace) : FaceMetrics :=
  { bbox := pf.bbox
    confidence := pf.confidence
    yaw := pf.yaw
    pitch := pf.pitch
    roll := pf.roll
    left_ear := pf.left_ear
    right_ear := pf.right_ear
    eyes_open_left := pf.eyes_open_left
    eyes_open_right := pf.eyes_open_right
    blink_count := pf.blink_count
    mar := pf.mar
    mouth_open := pf.mouth_open
    yawn_count := pf.yawn_count
    attention := attentionFromStr (pf.attention.getD "unknown") }

/-- `FrameData` of `data_structures.py` lines 41-53 (the fields the
scoring engine reads). -/
structure FrameData where
  frame_id : ℤ
  timestamp : ℚ
  face_count : ℤ
  face_detected : Bool
  faces : List FaceMetrics := []
  primary : Option FaceMetrics := none
  proc_time : ℚ := 0
  proc_fps : ℚ := 0
  capture_time : ℚ := 0
  deriving DecidableEq, Repr

/-- `statistics.mean`. -/
def meanQ (l : List ℚ) : ℚ := l.sum / l.length

/-- `np.var`: population variance. -/
def varQ (l : List ℚ) : ℚ := ((l.map (fun x => (x - meanQ l) ^ 2)).sum) / l.length

/-- Successive absolute frame-to-frame deltas,
`[abs(xs[i] - xs[i-1]) for i in range(1, len(xs))]`. -/
def deltasQ (l : List ℚ) : List ℚ := (l.zip l.tail).map (fun p => |p.2 - p.1|)

/-- Python `max(l) if l else 0`. -/
def maxQ (l : List ℚ) : ℚ :=
  match l with
  | [] => 0
  | x :: xs => xs.foldl max x

/-- `face_frames = [f for f in frames if f.primary]`, with each surviving
frame consumed through its `primary` face. -/
def faceFrames (frames : List FrameData) : List FaceMetrics :=
  frames.filterMap (·.primary)

/-- `frames[0].timestamp`. -/
def firstTimestamp (frames : List FrameData) : ℚ :=
  ((frames.head?).map (·.timestamp)).getD 0

/-- `frames[-1].timestamp`. -/
def lastTimestamp (frames : List FrameData) : ℚ :=
  ((frames.getLast?).map (·.timestamp)).getD 0

/-- Metrics dictionary returned by `calculate_focus_score`: empty for an
empty frame list, the `face_detected: False` flag when no frame carries a
face, else the statistics dict of lines 84-90. -/
inductive FocusMetrics where
  | noMetrics
  | noFaceFlag
  | stats (attentive_frames looking_away_frames unknown_frames : ℕ)
      (focus_percentage : ℚ) (total_frames_with_face : ℕ)
  deriving DecidableEq, Repr

/-- `ProductivityScoringEngine.calculate_focus_score`
(`productivity_score.py` lines 51-92). -/
def calculate_focus_score (frames : List FrameData) : ℚ × FocusMetrics :=
  if frames.isEmpty then (0, .noMetrics)
  else
    let face_frames := faceFrames frames
    if face_frames.isEmpty then (0, .noFaceFlag)
    else
      let attentive_count :=
        (face_frames.filter (fun f => f.attention = .ATTENTIVE)).length
      let looking_away_count :=
        (face_frames.filter (fun f => f.attention = .LOOKING_AWAY)).length
      let focus_percentage := ((attentive_count : ℚ) / face_frames.length) * 100
      (focus_percentage,
        .stats attentive_count looking_away_count
          (face_frames.length - attentive_count - looking_away_count)
          focus_percentage face_frames.length)

/-- Metrics dictionary returned by `calculate_engagement_score`. -/
inductive EngagementMetrics where
  | noMetrics
  | noFaceFlag
  | stats (average_ear : ℚ) (total_blinks : ℤ)
      (eyes_open_percentage ear_score blink_score eyes_open_score : ℚ)
  deriving DecidableEq, Repr

/-- `ProductivityScoringEngine.calculate_engagement_score`
(`productivity_score.py` lines 94-167). -/
def calculate_engagement_score (frames : List FrameData) : ℚ × EngagementMetrics :=
  if frames.isEmpty then (0, .noMetrics)
  else
    let face_frames := faceFrames frames
    if face_frames.isEmpty then (0, .noFaceFlag)
    else
      let ears := face_frames.map (fun f => (f.left_ear + f.right_ear) / 2)
      let blink_counts := face_frames.map (·.blink_count)
      let eyes_open_count :=
        (face_frames.filter (fun f => f.eyes_open_left || f.eyes_open_right)).length
      if ears.isEmpty then (0, .noMetrics)
      else
        let avg_ear := meanQ ears
        let total_blinks := blink_counts.sum
        let eyes_open_percentage := ((eyes_open_count : ℚ) / face_frames.length) * 100
        let ear_score := clampQ ((avg_ear - 0.10) / 0.15 * 100) 0 100
        let blink_score : ℚ := if total_blinks > 0 then 100 else 50
        let eyes_open_score := eyes_open_percentage
        let score := ear_score * 0.4 + blink_score * 0.3 + eyes_open_score * 0.3
        (clampQ score 0 100,
          .stats avg_ear total_blinks eyes_open_percentage ear_score
            blink_score eyes_open_score)

/-- Metrics dictionary returned by `calculate_stability_score`. -/
inductive StabilityMetrics where
  | noMetrics
  | insufficientData
  | stats (yaw_variance pitch_variance max_yaw_delta max_pitch_delta
      yaw_var_score pitch_var_score yaw_delta_score pitch_delta_score : ℚ)
  deriving DecidableEq, Repr

/-- `ProductivityScoringEngine.calculate_stability_score`
(`productivity_score.py` lines 169-237). -/
def calculate_stability_score (frames : List FrameData) : ℚ × StabilityMetrics :=
  if frames.isEmpty then (0, .noMetrics)
  else
    let face_frames := faceFrames frames
    if face_frames.length < 2 then (100, .insufficientData)
    else
      let yaws := face_frames.map (·.yaw)
      let pitches := face_frames.map (·.pitch)
      let yaw_var := if yaws.length > 1 then varQ yaws else 0
      let pitch_var := if pitches.length > 1 then varQ pitches else 0
      let yaw_deltas := deltasQ yaws
      let pitch_deltas := deltasQ pitches
      let max_yaw_delta := maxQ yaw_deltas
      let max_pitch_delta := maxQ pitch_deltas
      let yaw_var_score := max (100 - yaw_var * 2) 0
      let pitch_var_score := max (100 - pitch_var * 2) 0
      let yaw_delta_score := max (100 - max_yaw_delta * 2) 0
      let pitch_delta_score := max (100 - max_pitch_delta * 2) 0
      let score := yaw_var_score * 0.25 + pitch_var_score * 0.25 +
        yaw_delta_score * 0.25 + pitch_delta_score * 0.25
      (clampQ score 0 100,
        .stats yaw_var pitch_var max_yaw_delta max_pitch_delta
          yaw_var_score pitch_var_score yaw_delta_score pitch_delta_score)

/-- `SessionMetrics` of `data_structures.py` lines 139-152. -/
structure SessionMetrics where
  total_frames : ℕ := 0
  frames_with_face : ℕ := 0
  total_attentive_frames : ℕ := 0
  total_looking_away_frames : ℕ := 0
  total_unknown_frames : ℕ := 0
  total_blinks : ℤ := 0
  average_ear : ℚ := 0
  average_yaw : ℚ := 0
  average_pitch : ℚ := 0
  average_fps : ℚ := 0
  session_duration : ℚ := 0
  deriving DecidableEq, Repr

/-- `ProductivityScoringEngine.calculate_session_metrics`
(`productivity_score.py` lines 239-286). -/
def calculate_session_metrics (frames : List FrameData) : SessionMetrics :=
  if frames.isEmpty then {}
  else
    let face_frames := faceFrames frames
    let attentive := (face_frames.filter (fun f => f.attention = .ATTENTIVE)).length
    let looking_away := (face_frames.filter (fun f => f.attention = .LOOKING_AWAY)).length
    let unknown := face_frames.length - attentive - looking_away
    let total_blinks := (face_frames.map (·.blink_count)).sum
    let ears := face_frames.map (fun f => f.left_ear + f.right_ear)
    let avg_ear := if ¬ ears.isEmpty then ears.sum / (2 * ears.length) else 0
    let yaws := face_frames.map (·.yaw)
    let pitches := face_frames.map (·.pitch)
    let avg_yaw := if ¬ yaws.isEmpty then meanQ yaws else 0
    let avg_pitch := if ¬ pitches.isEmpty then meanQ pitches else 0
    let fps_list := (frames.map (·.proc_fps)).filter (fun x => x > 0)
    let avg_fps := if ¬ fps_list.isEmpty then meanQ fps_list else 0
    let duration :=
      if frames.length > 1 then lastTimestamp frames - firstTimestamp frames else 0
    { total_frames := frames.length
      frames_with_face := face_frames.length
      total_attentive_frames := attentive
      total_looking_away_frames := looking_away
      total_unknown_frames := unknown
      total_blinks := total_blinks
      average_ear := avg_ear
      average_yaw := avg_yaw
      average_pitch := avg_pitch
      average_fps := avg_fps
      session_duration := duration }

/-- Metrics dictionary returned by `calculate_fatigue_score`
(`productivity_score.py` lines 442-457; the constant `weights` sub-dict is
the `w_*` constants below). -/
inductive FatigueMetrics where
  | noMetrics
  | stats (average_ear ear_fatigue blink_rate_per_min blink_fatigue
      yawn_rate_per_min yawn_fatigue looking_away_frac looking_away_fatigue
      stability_score stability_fatigue duration_minutes : ℚ)
      (total_blinks total_yawns : ℤ)
  deriving DecidableEq, Repr

/-- Fatigue component weights (`productivity_score.py` lines 428-432). -/
def w_ear : ℚ := 0.25
/-- Blink-rate weight in the fatigue blend. -/
def w_blink : ℚ := 0.20
/-- Yawn-rate weight in the fatigue blend. -/
def w_yawn : ℚ := 0.30
/-- Looking-away weight in the fatigue blend. -/
def w_look : ℚ := 0.15
/-- Stability weight in the fatigue blend. -/
def w_stab : ℚ := 0.10

/-- The epsilon floor for the session duration in minutes
(`max(duration_seconds / 60.0, 1e-6)`, line 378). -/
def duration_epsilon : ℚ := 1/1000000

/-- `ProductivityScoringEngine.calculate_fatigue_score`
(`productivity_score.py` lines 358-459).  `int(x or 0)` on an `int` count
is the identity (`0 or 0 == 0`). -/
def calculate_fatigue_score (frames : List FrameData) : ℚ × FatigueMetrics :=
  if frames.isEmpty then (0, .noMetrics)
  else
    let face_frames := faceFrames frames
    if face_frames.isEmpty then (0, .noMetrics)
    else
      let duration_seconds :=
        if frames.length > 1 then lastTimestamp frames - firstTimestamp frames else 0
      let duration_minutes := max (duration_seconds / 60) duration_epsilon
      let ears := face_frames.map (fun f => (f.left_ear + f.right_ear) / 2)
      let total_blinks : ℤ := (face_frames.map (·.blink_count)).sum
      let total_yawns : ℤ := (face_frames.map (·.yawn_count)).sum
      let looking_away_count :=
        (face_frames.filter (fun f => f.attention = .LOOKING_AWAY)).length
      let avg_ear := if ¬ ears.isEmpty then meanQ ears else 0
      let blink_rate := (total_blinks : ℚ) / duration_minutes
      let yawn_rate := (total_yawns : ℚ) / duration_minutes
      let looking_away_frac := (looking_away_count : ℚ) / face_frames.length
      let stability_score := (calculate_stability_score frames).1
      let ear_score := clampQ ((avg_ear - 0.10) / 0.15 * 100) 0 100
      let ear_fatigue := 100 - ear_score
      let blink_fatigue := clampQ ((blink_rate - 10) / (40 - 10) * 100) 0 100
      let yawn_fatigue := clampQ (yawn_rate / 2 * 100) 0 100
      let looking_away_fatigue := clampQ (looking_away_frac * 100) 0 100
      let stability_fatigue := 100 - stability_score
      let fatigue_score := ear_fatigue * w_ear + blink_fatigue * w_blink +
        yawn_fatigue * w_yawn + looking_away_fatigue * w_look +
        stability_fatigue * w_stab
      (clampQ fatigue_score 0 100,
        .stats avg_ear ear_fatigue blink_rate blink_fatigue yawn_rate yawn_fatigue
          looking_away_frac looking_away_fatigue stability_score stability_fatigue
          duration_minutes total_blinks total_yawns)

/-- The insight strings of `_generate_insights` (`productivity_score.py`
lines 461-504), one constructor per distinct message. -/
inductive Insight where
  | noFramesToAnalyze
  | noFaceDetected
  | excellentFocus
  | goodFocus
  | moderateFocus
  | lowFocus
  | eyesEngaged
  | eyesPartiallyEngaged
  | eyeEngagementLow
  | headVeryStable
  | headRelativelyStable
  | frequentHeadMovements
  | sessionDurationNote (minutes : ℚ)
  deriving DecidableEq, Repr

/-- `ProductivityScoringEngine._generate_insights`
(`productivity_score.py` lines 461-504). -/
def generate_insights (focus_score engagement_score stability_score : ℚ)
    (session : SessionMetrics) : List Insight :=
  if session.total_frames = 0 then [.noFaceDetected]
  else
    let focusI : Insight :=
      if focus_score > 80 then .excellentFocus
      else if focus_score > 60 then .goodFocus
      else if focus_score > 40 then .moderateFocus
      else .lowFocus
    let engagementI : Insight :=
      if engagement_score > 80 then .eyesEngaged
      else if engagement_score > 60 then .eyesPartiallyEngaged
      else .eyeEngagementLow
    let stabilityI : Insight :=
      if stability_score > 80 then .headVeryStable
      else if stability_score > 60 then .headRelativelyStable
      else .frequentHeadMovements
    let base := [focusI, engagementI, stabilityI]
    if session.session_duration > 300 then
      base ++ [.sessionDurationNote (session.session_duration / 60)]
    else base

/-- The recommendation strings of `_generate_recommendations`
(`productivity_score.py` lines 506-534), one constructor per message. -/
inductive Recommendation where
  | ensureVideoCaptured
  | takeFiveMinuteBreak
  | tryPomodoro
  | reduceEyeStrain
  | stayHydrated
  | adjustMonitorLighting
  | improveErgonomics
  | considerLongerBreak
  | keepUpGreatWork
  deriving DecidableEq, Repr

/-- `ProductivityScoringEngine._generate_recommendations`
(`productivity_score.py` lines 506-534). -/
def generate_recommendations (focus_score engagement_score stability_score : ℚ)
    (session : SessionMetrics) : List Recommendation :=
  let r : List Recommendation :=
    if focus_score < 50 then [.takeFiveMinuteBreak, .tryPomodoro] else []
  let r := r ++ (if engagement_score < 60 then [.reduceEyeStrain, .stayHydrated] else [])
  let r := r ++ (if stability_score < 50 then [.adjustMonitorLighting, .improveErgonomics] else [])
  let r := r ++
    (if session.session_duration > 3600 ∧ focus_score < 70 then [.considerLongerBreak] else [])
  if r.isEmpty then [.keepUpGreatWork] else r

/-- The `components` dictionary of `calculate_overall_score`
(`productivity_score.py` lines 344-353). -/
structure ScoreComponents where
  focus : ℚ
  engagement : ℚ
  stability : ℚ
  fatigue : ℚ
  focus_metrics : FocusMetrics
  engagement_metrics : EngagementMetrics
  stability_metrics : StabilityMetrics
  fatigue_metrics : FatigueMetrics
  deriving DecidableEq, Repr

/-- `ProductivityScore` of `data_structures.py` lines 155-164 (`components`
is `none` for the empty default dict of the no-frames early return). -/
structure ProductivityScore where
  overall_score : ℚ
  focus_score : ℚ
  engagement_score : ℚ
  stability_score : ℚ
  components : Option ScoreComponents := none
  insights : List Insight := []
  recommendations : List Recommendation := []
  deriving DecidableEq, Repr

/-- `ProductivityScoringEngine.__init__` state (`productivity_score.py`
lines 32-49): the three normalized component weights.  These are the only
attributes the engine ever stores. -/
structure ProductivityScoringEngine where
  focus_weight : ℚ
  engagement_weight : ℚ
  stability_weight : ℚ
  deriving DecidableEq, Repr

/-- `ProductivityScoringEngine.__init__`: weights divided by their total. -/
def mkEngine (focus_weight engagement_weight stability_weight : ℚ) :
    ProductivityScoringEngine :=
  let total := focus_weight + engagement_weight + stability_weight
  { focus_weight := focus_weight / total
    engagement_weight := engagement_weight / total
    stability_weight := stability_weight / total }

/-- The engine with the default constructor weights 0.4 / 0.35 / 0.25. -/
def defaultEngine : ProductivityScoringEngine := mkEngine 0.4 0.35 0.25

/-- `ProductivityScoringEngine.calculate_overall_score`
(`productivity_score.py` lines 288-356).  The method is modelled with the
engine (`self`) threaded in and out explicitly: the body only reads the
weight attributes and assigns no attribute, so the returned engine is the
argument. -/
def calculate_overall_score (e : ProductivityScoringEngine)
    (frames : List FrameData) : ProductivityScore × ProductivityScoringEngine :=
  if frames.isEmpty then
    ({ overall_score := 0
       focus_score := 0
       engagement_score := 0
       stability_score := 0
       insights := [.noFramesToAnalyze]
       recommendations := [.ensureVideoCaptured] }, e)
  else
    let focus_score := (calculate_focus_score frames).1
    let focus_metrics := (calculate_focus_score frames).2
    let engagement_score := (calculate_engagement_score frames).1
    let engagement_metrics := (calculate_engagement_score frames).2
    let stability_score := (calculate_stability_score frames).1
    let stability_metrics := (calculate_stability_score frames).2
    let fatigue_score := (calculate_fatigue_score frames).1
    let fatigue_metrics := (calculate_fatigue_score frames).2
    let overall_score := focus_score * e.focus_weight +
      engagement_score * e.engagement_weight +
      stability_score * e.stability_weight
    let session := calculate_session_metrics frames
    let insights := generate_insights focus_score engagement_score stability_score session
    let recommendations :=
      generate_recommendations focus_score engagement_score stability_score session
    ({ overall_score := clampQ overall_score 0 100
       focus_score := focus_score
       engagement_score := engagement_score
       stability_score := stability_score
       components := some
         { focus := focus_score
           engagement := engagement_score
           stability := stability_score
           fatigue := fatigue_score
           focus_metrics := focus_metrics
           engagement_metrics := engagement_metrics
           stability_metrics := stability_metrics
           fatigue_metrics := fatigue_metrics }
       insights := insights
       recommendations := recommendations }, e)

/-! ## Eye analysis (`src/focus_detection/eye_analysis.py`)

Landmark coordinates are exact rationals; the Euclidean distance needs a
real square root, so the EAR lives in `ℝ` (the one place the embedding is
not executable, because exact square roots are not). -/

noncomputable section

/-- `EyeAnalysis._euclidean` (`eye_analysis.py` lines 23-27):
`np.linalg.norm(a - b)` for 2-D points. -/
def euclid (a b : ℚ × ℚ) : ℝ :=
  Real.sqrt (((a.1 - b.1 : ℚ) : ℝ) ^ 2 + ((a.2 - b.2 : ℚ) : ℝ) ^ 2)

/-- A `(6, 2)` eye-landmark array `p1..p6` as consumed by
`eye_aspect_ratio` (the shape guard of line 69 is enforced by type). -/
structure EyePoints where
  p1 : ℚ × ℚ
  p2 : ℚ × ℚ
  p3 : ℚ × ℚ
  p4 : ℚ × ℚ
  p5 : ℚ × ℚ
  p6 : ℚ × ℚ

/-- `EyeAnalysis.eye_aspect_ratio` (`eye_analysis.py` lines 63-86):
`(‖p2−p6‖ + ‖p3−p5‖) / (2·‖p1−p4‖)`, and `0.0` when the horizontal
distance `C` is zero.  (Named `earOfEye` here; the computation is the
source's `eye_aspect_ratio`.) -/
def earOfEye (e : EyePoints) : ℝ :=
  let A := euclid e.p2 e.p6
  let B := euclid e.p3 e.p5
  let C := euclid e.p1 e.p4
  if C = 0 then 0 else (A + B) / (2 * C)

/-- Default EAR threshold (`EyeAnalysis.__init__` / `FocusAnalyzer.__init__`,
`ear_threshold: float = 0.20`). -/
def ear_threshold_default : ℚ := 0.20

/-- Result of `EyeAnalysis.analyze` for one eye (`eye_analysis.py` lines
168-188): the EAR and the open flag `ear >= self.ear_threshold`. -/
structure EyeResult where
  ear : ℝ
  eye_open : Prop

/-- One eye of `EyeAnalysis.analyze`: `left_ear = self.eye_aspect_ratio(...)`,
`left_open = left_ear >= self.ear_threshold` (lines 168-172). -/
def analyzeEye (e : EyePoints) (ear_threshold : ℚ) : EyeResult :=
  { ear := earOfEye e
    eye_open := earOfEye e ≥ (ear_threshold : ℝ) }

end

/-! ## Named sub-quantities of the fatigue blend (for stating C8) -/

/-- `duration_minutes` of `calculate_fatigue_score` (lines 377-378):
session duration in minutes floored at the epsilon. -/
def sessionDurationMinutes (frames : List FrameData) : ℚ :=
  max ((if frames.length > 1 then lastTimestamp frames - firstTimestamp frames else 0) / 60)
    duration_epsilon

/-- `blink_rate` of `calculate_fatigue_score` (line 401). -/
def blinkRatePerMin (frames : List FrameData) : ℚ :=
  (((faceFrames frames).map (·.blink_count)).sum : ℤ) / sessionDurationMinutes frames

/-- `yawn_rate` of `calculate_fatigue_score` (line 402). -/
def yawnRatePerMin (frames : List FrameData) : ℚ :=
  (((faceFrames frames).map (·.yawn_count)).sum : ℤ) / sessionDurationMinutes frames

/-- `avg_ear` of `calculate_fatigue_score` (lines 388-398). -/
def avgEarOf (frames : List FrameData) : ℚ :=
  let ears := (faceFrames frames).map (fun f => (f.left_ear + f.right_ear) / 2)
  if ¬ ears.isEmpty then meanQ ears else 0

/-- `ear_score` as in lines 145 and 412: `clamp((avg_ear − 0.10)/0.15 × 100, 0, 100)`. -/
def earScoreOf (frames : List FrameData) : ℚ :=
  clampQ ((avgEarOf frames - 0.10) / 0.15 * 100) 0 100

/-- `looking_away_ratio` of `calculate_fatigue_score` (line 405). -/
def lookAwayFracOf (frames : List FrameData) : ℚ :=
  (((faceFrames frames).filter (fun f => f.attention = .LOOKING_AWAY)).length : ℚ) /
    (faceFrames frames).length


/-! ## Concrete inputs used by the witnesses -/

/-- A concrete face dictionary with attention string `"eyes_closed"`. -/
def exPipelineFace : PipelineFace :=
  { bbox := ⟨0, 0, 100, 100⟩
    confidence := 9/10
    yaw := 0
    pitch := 0
    roll := 0
    left_ear := 1/10
    right_ear := 1/10
    eyes_open_left := false
    eyes_open_right := false
    blink_count := 3
    mar := 1/2
    mouth_open := false
    yawn_count := 1
    attention := some "eyes_closed" }

/-- A face-frame whose primary has the given attention label. -/
def mkFace (att : AttentionState) : FaceMetrics :=
  { bbox := ⟨0, 0, 10, 10⟩
    confidence := 1
    yaw := 0
    pitch := 0
    roll := 0
    left_ear := 3/10
    right_ear := 3/10
    eyes_open_left := true
    eyes_open_right := true
    blink_count := 0
    mar := 1/2
    mouth_open := false
    yawn_count := 0
    attention := att }

/-- A frame whose primary face carries the given attention label. -/
def mkFrame (i : ℤ) (ts : ℚ) (att : AttentionState) : FrameData :=
  { frame_id := i
    timestamp := ts
    face_count := 1
    face_detected := true
    faces := [mkFace att]
    primary := some (mkFace att) }

/-- Ten face-frames, six of them attentive. -/
def exFrames10 : List FrameData :=
  [mkFrame 1 1 .ATTENTIVE, mkFrame 2 2 .ATTENTIVE, mkFrame 3 3 .ATTENTIVE,
   mkFrame 4 4 .ATTENTIVE, mkFrame 5 5 .ATTENTIVE, mkFrame 6 6 .ATTENTIVE,
   mkFrame 7 7 .LOOKING_AWAY, mkFrame 8 8 .LOOKING_AWAY,
   mkFrame 9 9 .UNKNOWN, mkFrame 10 10 .UNKNOWN]

/-- A single frame with no detected face. -/
def exFacelessFrame : FrameData :=
  { frame_id := 1
    timestamp := 5
    face_count := 0
    face_detected := false
    faces := []
    primary := none }

/-- A concrete six-point eye with integer distances: `‖p2−p6‖ = ‖p3−p5‖ = 2`
and `‖p1−p4‖ = 10`, so the EAR is exactly `0.20`. -/
def exEye : EyePoints :=
  { p1 := (0, 0)
    p2 := (2, 1)
    p3 := (7, 1)
    p4 := (10, 0)
    p5 := (7, -1)
    p6 := (2, -1) }

/-- A track whose eyes closed at t = 10 s while attentive, with no prior
blink counted. -/
def exBlinkState : FaceState :=
  { bbox := ⟨0, 0, 10, 10⟩
    prev_eyes_closed := true
    blink_start_ts := some 10
    blink_started_attention := some .attentive
    last_blink_ts := 0
    blink_count := 0 }


/-- A track map holding a single track last seen at t = 1 s. -/
def exStaleState : AnalyzerState :=
  { states := [(0, { bbox := ⟨0, 0, 10, 10⟩, last_seen := 1 })]
    next_state_id := 1 }

/-- A malformed detection: no bounding box, so `analyze_frame` skips it
(line 172-174) but still runs the per-frame prune sweep. -/
def exNoBoxMeasurement : Measurement :=
  { bbox := none
    left_open := true
    right_open := true
    mouth_open := false
    yaw := 0
    pitch := 0
    roll := 0 }

/-- A track map holding a stale track (t = 1 s) and a fresh one (t = 9 s). -/
def exTwoTrackState : AnalyzerState :=
  { states := [(0, { bbox := ⟨0, 0, 10, 10⟩, last_seen := 1 }),
               (1, { bbox := ⟨20, 20, 30, 30⟩, last_seen := 9 })]
    next_state_id := 2 }

/-- An analyzer with no live tracks yet. -/
def exEmptyAssocState : AnalyzerState :=
  { states := [], next_state_id := 0 }

/-! ## Theorems -/

/-- C4: for every frame list, `calculate_overall_score` leaves the engine
(`self`) unchanged — it is a pure function of the frame list and the
construction-time weights — and invoking it twice in succession on the
unchanged list returns identical `ProductivityScore` results. -/
theorem C4_overall_score_pure_idempotent (e : ProductivityScoringEngine)
    (frames : List FrameData) :
    (calculate_overall_score e frames).2 = e ∧
    (calculate_overall_score ((calculate_overall_score e frames).2) frames).1 =
      (calculate_overall_score e frames).1 := by
  have h2 : ∀ e' : ProductivityScoringEngine,
      (calculate_overall_score e' frames).2 = e' := by
    intro e'
    by_cases h : frames.isEmpty <;> simp [calculate_overall_score, h]
  exact ⟨h2 e, by rw [h2 e]⟩

/-- C9: a face dictionary whose attention string is `"eyes_closed"` — or
any value outside the scoring vocabulary `attentive` / `looking_away` /
`unknown` — is converted by `FrameData.from_pipeline_output` to a
`FaceMetrics` carrying `AttentionState.UNKNOWN` instead of raising. -/
theorem C9_eyes_closed_collapses_to_unknown (pf : PipelineFace) :
    (pf.attention = some "eyes_closed" →
      (fromPipelineFace pf).attention = AttentionState.UNKNOWN) ∧
    (∀ s : String, pf.attention = some s → strLower s ≠ "attentive" →
      strLower s ≠ "looking_away" → strLower s ≠ "unknown" →
      (fromPipelineFace pf).attention = AttentionState.UNKNOWN) := by
  refine ⟨fun h => ?_, fun s hs h1 h2 h3 => ?_⟩
  · simp only [fromPipelineFace, h, Option.getD_some]
    decide
  · simp only [fromPipelineFace, hs, Option.getD_some, attentionFromStr]
    rw [if_neg h1, if_neg h2, if_neg h3]


/-- Witness for C9 at the concrete face dictionary above. -/
theorem C9_witness :
    exPipelineFace.attention = some "eyes_closed" ∧
    (fromPipelineFace exPipelineFace).attention = AttentionState.UNKNOWN :=
  ⟨rfl, (C9_eyes_closed_collapses_to_unknown exPipelineFace).1 rfl⟩

/-- Helper: on a non-empty frame list with no face-frames,
`calculate_focus_score` returns `(0.0, {"face_detected": False})`. -/
theorem calculate_focus_score_noFace (frames : List FrameData) (hf : frames ≠ [])
    (hff : faceFrames frames = []) :
    calculate_focus_score frames = (0, .noFaceFlag) := by
  unfold calculate_focus_score
  rw [if_neg (by simp [hf]), if_pos (by simp [hff])]

/-- Helper: on a non-empty frame list with no face-frames,
`calculate_engagement_score` returns `(0.0, {"face_detected": False})`. -/
theorem calculate_engagement_score_noFace (frames : List FrameData) (hf : frames ≠ [])
    (hff : faceFrames frames = []) :
    calculate_engagement_score frames = (0, .noFaceFlag) := by
  unfold calculate_engagement_score
  rw [if_neg (by simp [hf]), if_pos (by simp [hff])]

/-- Helper: on a non-empty frame list with fewer than two face-frames,
`calculate_stability_score` returns `(100.0, {"insufficient_data": True})`. -/
theorem calculate_stability_score_few (frames : List FrameData) (hf : frames ≠ [])
    (hlen : (faceFrames frames).length < 2) :
    calculate_stability_score frames = (100, .insufficientData) := by
  unfold calculate_stability_score
  rw [if_neg (by simp [hf]), if_pos (by simpa using hlen)]

/-- C5 counterexample: the empty frame list is a frame list with no
face-frames, yet `calculate_focus_score` returns the empty metrics dict
for it, not the explanatory `face_detected: False` flag. -/
theorem C5_counterexample :
    faceFrames ([] : List FrameData) = [] ∧
    calculate_focus_score [] = (0, FocusMetrics.noMetrics) ∧
    FocusMetrics.noMetrics ≠ FocusMetrics.noFaceFlag :=
  ⟨rfl, rfl, by decide⟩

/-- C5 (amended): whenever at least one face-frame exists, the focus score
is exactly `100 × attentive-face-frames / face-frames`; on a *non-empty*
frame list with no face-frames the result is `0.0` with the explanatory
flag (the empty list instead returns `0.0` with empty metrics). -/
theorem C5_focus_score (frames : List FrameData) :
    (faceFrames frames ≠ [] →
      (calculate_focus_score frames).1 =
        100 * (((faceFrames frames).filter
            (fun f => f.attention = .ATTENTIVE)).length : ℚ) /
          ((faceFrames frames).length : ℚ)) ∧
    (frames ≠ [] → faceFrames frames = [] →
      calculate_focus_score frames = (0, .noFaceFlag)) := by
  constructor
  · intro hff
    have hf : frames ≠ [] := by
      intro h
      rw [h] at hff
      exact hff rfl
    unfold calculate_focus_score
    rw [if_neg (by simp [hf]), if_neg (by simp [hff])]
    simp only
    ring
  · exact calculate_focus_score_noFace frames




/-- Witness for C5: 10 face-frames with 6 attentive give focus score 60. -/
theorem C5_witness :
    faceFrames exFrames10 ≠ [] ∧ (calculate_focus_score exFrames10).1 = 60 := by
  refine ⟨by decide, ?_⟩
  have h := (C5_focus_score exFrames10).1 (by decide)
  have hc : ((faceFrames exFrames10).filter
      (fun f => f.attention = .ATTENTIVE)).length = 6 := by decide
  have hl : (faceFrames exFrames10).length = 10 := by decide
  rw [h, hc, hl]
  norm_num

/-- C10: a non-empty history with fewer than two face-frames gets the
maximal stability score 100 with the `insufficient_data` flag, so a
faceless non-empty history's overall score is `stability_weight · 100`
(clamped), which is 25 with the default weights — not 0. -/
theorem C10_faceless_stability (e : ProductivityScoringEngine)
    (frames : List FrameData) :
    (frames ≠ [] → (faceFrames frames).length < 2 →
      calculate_stability_score frames = (100, .insufficientData)) ∧
    (frames ≠ [] → faceFrames frames = [] →
      (calculate_overall_score e frames).1.overall_score =
        clampQ (e.stability_weight * 100) 0 100) ∧
    (frames ≠ [] → faceFrames frames = [] →
      (calculate_overall_score defaultEngine frames).1.overall_score = 25) := by
  have hover : ∀ e' : ProductivityScoringEngine, frames ≠ [] → faceFrames frames = [] →
      (calculate_overall_score e' frames).1.overall_score =
        clampQ (e'.stability_weight * 100) 0 100 := by
    intro e' hf hff
    have hfocus := calculate_focus_score_noFace frames hf hff
    have heng := calculate_engagement_score_noFace frames hf hff
    have hstab := calculate_stability_score_few frames hf (by simp [hff])
    unfold calculate_overall_score
    rw [if_neg (by simp [hf])]
    simp only [hfocus, heng, hstab]
    have : (0 : ℚ) * e'.focus_weight + 0 * e'.engagement_weight +
        100 * e'.stability_weight = e'.stability_weight * 100 := by ring
    rw [this]
  refine ⟨fun hf hlen => calculate_stability_score_few frames hf hlen,
    hover e, fun hf hff => ?_⟩
  rw [hover defaultEngine hf hff]
  norm_num [clampQ, defaultEngine, mkEngine]


/-- Witness for C10 at a one-frame faceless history. -/
theorem C10_witness :
    ([exFacelessFrame] : List FrameData) ≠ [] ∧
    faceFrames [exFacelessFrame] = [] ∧
    calculate_stability_score [exFacelessFrame] = (100, .insufficientData) ∧
    (calculate_overall_score defaultEngine [exFacelessFrame]).1.overall_score = 25 := by
  refine ⟨by decide, by decide, ?_, ?_⟩
  · exact (C10_faceless_stability defaultEngine [exFacelessFrame]).1 (by decide) (by decide)
  · exact (C10_faceless_stability defaultEngine [exFacelessFrame]).2.2 (by decide) (by decide)

/-- Helper: the looking-away fraction lies in `[0,1]`, so the code's clamp
of `ratio × 100` is just `100 × ratio`. -/
theorem clamp_lookaway_id (frames : List FrameData) (h : faceFrames frames ≠ []) :
    clampQ (lookAwayFracOf frames * 100) 0 100 = 100 * lookAwayFracOf frames := by
  have hlen : 0 < ((faceFrames frames).length : ℚ) := by
    exact_mod_cast List.length_pos.mpr h
  have hcount : (((faceFrames frames).filter
      (fun f => f.attention = .LOOKING_AWAY)).length : ℚ) ≤
      ((faceFrames frames).length : ℚ) := by
    exact_mod_cast List.length_filter_le _ _
  have h0 : 0 ≤ lookAwayFracOf frames := by
    unfold lookAwayFracOf
    positivity
  have h1 : lookAwayFracOf frames ≤ 1 := by
    unfold lookAwayFracOf
    rw [div_le_one hlen]
    exact hcount
  unfold clampQ
  rw [max_eq_left (by positivity), min_eq_left (by nlinarith)]
  ring

/-- C8: with at least one face-frame present, the fatigue score is the
clamp to `[0,100]` of the weighted blend
`0.25·(100−ear_score) + 0.20·clamp((blink_rate−10)/30·100) +
0.30·clamp(yawn_rate/2·100) + 0.15·(100·looking_away_ratio) +
0.10·(100−stability_score)`, with the per-minute rates normalized by the
session duration floored at the `1e-6`-minute epsilon (which is positive,
so no division by zero occurs). -/
theorem C8_fatigue_formula (frames : List FrameData) (h : faceFrames frames ≠ []) :
    0 < sessionDurationMinutes frames ∧
    (calculate_fatigue_score frames).1 =
      clampQ (0.25 * (100 - earScoreOf frames) +
        0.20 * clampQ ((blinkRatePerMin frames - 10) / 30 * 100) 0 100 +
        0.30 * clampQ (yawnRatePerMin frames / 2 * 100) 0 100 +
        0.15 * (100 * lookAwayFracOf frames) +
        0.10 * (100 - (calculate_stability_score frames).1)) 0 100 := by
  have hf : frames ≠ [] := by
    intro hh
    rw [hh] at h
    exact h rfl
  constructor
  · exact lt_of_lt_of_le (by norm_num [duration_epsilon]) (le_max_right _ _)
  · unfold calculate_fatigue_score
    rw [if_neg (by simp [hf]), if_neg (by simp [h])]
    simp only
    rw [← clamp_lookaway_id frames h]
    unfold earScoreOf avgEarOf blinkRatePerMin yawnRatePerMin lookAwayFracOf
      sessionDurationMinutes
    congr 1
    norm_num [w_ear, w_blink, w_yawn, w_look, w_stab]
    ring

/-- Witness for C8 at the concrete ten-frame history. -/
theorem C8_witness :
    faceFrames exFrames10 ≠ [] ∧
    (0 < sessionDurationMinutes exFrames10 ∧
      (calculate_fatigue_score exFrames10).1 =
        clampQ (0.25 * (100 - earScoreOf exFrames10) +
          0.20 * clampQ ((blinkRatePerMin exFrames10 - 10) / 30 * 100) 0 100 +
          0.30 * clampQ (yawnRatePerMin exFrames10 / 2 * 100) 0 100 +
          0.15 * (100 * lookAwayFracOf exFrames10) +
          0.10 * (100 - (calculate_stability_score exFrames10).1)) 0 100) :=
  ⟨by decide, C8_fatigue_formula exFrames10 (by decide)⟩

/-- C7: the computed EAR is `(‖p2−p6‖ + ‖p3−p5‖) / (2·‖p1−p4‖)`, is `0`
when `‖p1−p4‖ = 0`, and the eye is marked open exactly when the EAR
reaches the configured threshold (inclusive boundary). -/
theorem C7_ear_formula_and_open (e : EyePoints) (thr : ℚ) :
    (euclid e.p1 e.p4 ≠ 0 →
      (analyzeEye e thr).ear =
        (euclid e.p2 e.p6 + euclid e.p3 e.p5) / (2 * euclid e.p1 e.p4)) ∧
    (euclid e.p1 e.p4 = 0 → (analyzeEye e thr).ear = 0) ∧
    ((analyzeEye e thr).eye_open ↔ (analyzeEye e thr).ear ≥ (thr : ℝ)) := by
  refine ⟨fun hC => ?_, fun hC => ?_, Iff.rfl⟩
  · simp [analyzeEye, earOfEye, hC]
  · simp [analyzeEye, earOfEye, hC]


/-- Witness for C7: EAR exactly `0.20` at the default threshold `0.20`
yields an open eye (inclusive boundary). -/
theorem C7_witness :
    euclid exEye.p1 exEye.p4 ≠ 0 ∧
    (analyzeEye exEye ear_threshold_default).ear = ((0.20 : ℚ) : ℝ) ∧
    (analyzeEye exEye ear_threshold_default).eye_open := by
  have h14 : euclid exEye.p1 exEye.p4 = 10 := by
    unfold euclid exEye
    norm_num
    rw [show (100 : ℝ) = 10 ^ 2 by norm_num]
    exact Real.sqrt_sq (by norm_num)
  have h26 : euclid exEye.p2 exEye.p6 = 2 := by
    unfold euclid exEye
    norm_num
    rw [show (4 : ℝ) = 2 ^ 2 by norm_num]
    exact Real.sqrt_sq (by norm_num)
  have h35 : euclid exEye.p3 exEye.p5 = 2 := by
    unfold euclid exEye
    norm_num
    rw [show (4 : ℝ) = 2 ^ 2 by norm_num]
    exact Real.sqrt_sq (by norm_num)
  have hne : euclid exEye.p1 exEye.p4 ≠ 0 := by rw [h14]; norm_num
  have hear := (C7_ear_formula_and_open exEye ear_threshold_default).1 hne
  rw [h14, h26, h35] at hear
  have hval : (analyzeEye exEye ear_threshold_default).ear = ((0.20 : ℚ) : ℝ) := by
    rw [hear]
    norm_num
  refine ⟨hne, hval, ?_⟩
  rw [(C7_ear_formula_and_open exEye ear_threshold_default).2.2, hval]
  norm_num [ear_threshold_default]

/-- Helper: closed form of the blink machine on a CLOSED→OPEN transition
with a truthy recorded start time. -/
theorem blinkStep_open_eq (s : FaceState) (a : Attention) (now t : ℚ)
    (hprev : s.prev_eyes_closed = true)
    (hstart : s.blink_start_ts = some t)
    (ht : t ≠ 0) :
    blinkStep s false a now =
      { (if (blink_min_dur ≤ now - t ∧ now - t ≤ blink_max_dur) ∧
            ((s.blink_started_attention = some Attention.attentive ∨
                a = Attention.attentive) ∧
              now - s.last_blink_ts > blink_refractory)
          then { s with blink_count := s.blink_count + 1, last_blink_ts := now }
          else s) with
        closed_frames := 0
        pending_blink := false
        blink_start_ts := none
        blink_started_attention := none
        prev_eyes_closed := false } := by
  have ht2 : truthyTs (some t) = true := by simp [truthyTs, ht]
  simp only [blinkStep, hprev, hstart, ht2, Bool.not_true, Bool.false_and,
    Bool.and_false, Bool.not_false, Bool.true_and, Bool.and_self,
    if_true, if_false, Bool.false_eq_true, if_pos, Option.map_some']
  by_cases h1 : blink_min_dur ≤ now - t ∧ now - t ≤ blink_max_dur
  · by_cases h2 : (s.blink_started_attention = some Attention.attentive ∨
        a = Attention.attentive) ∧ now - s.last_blink_ts > blink_refractory
    · rw [if_pos h1, if_pos h2, if_pos ⟨h1, h2⟩]
    · rw [if_pos h1, if_neg h2, if_neg (fun hc => h2 hc.2)]
  · rw [if_neg h1, if_neg (fun hc => h1 hc.1)]

/-- C1: on a CLOSED→OPEN eye transition, the blink is counted
(`blink_count` +1 and `last_blink_ts := now`) iff the closure duration
`now − start_ts` lies in `[0.03 s, 0.7 s]`, the closure started attentive
or ends attentive, and `now − last_blink_ts > 0.2 s`; and regardless of
the outcome, `start_ts`, `started_attention`, `pending` and the
closed-frame counter are reset. -/
theorem C1_blink_closed_to_open (s : FaceState) (a : Attention) (now t : ℚ)
    (hprev : s.prev_eyes_closed = true)
    (hstart : s.blink_start_ts = some t)
    (ht : 0 < t) :
    ((blinkStep s false a now).blink_count = s.blink_count + 1 ∧
        (blinkStep s false a now).last_blink_ts = now
      ↔ (blink_min_dur ≤ now - t ∧ now - t ≤ blink_max_dur) ∧
        ((s.blink_started_attention = some Attention.attentive ∨
            a = Attention.attentive) ∧
          now - s.last_blink_ts > blink_refractory)) ∧
    (¬ ((blink_min_dur ≤ now - t ∧ now - t ≤ blink_max_dur) ∧
        ((s.blink_started_attention = some Attention.attentive ∨
            a = Attention.attentive) ∧
          now - s.last_blink_ts > blink_refractory)) →
      (blinkStep s false a now).blink_count = s.blink_count ∧
      (blinkStep s false a now).last_blink_ts = s.last_blink_ts) ∧
    (blinkStep s false a now).closed_frames = 0 ∧
    (blinkStep s false a now).pending_blink = false ∧
    (blinkStep s false a now).blink_start_ts = none ∧
    (blinkStep s false a now).blink_started_attention = none ∧
    (blinkStep s false a now).prev_eyes_closed = false := by
  rw [blinkStep_open_eq s a now t hprev hstart (ne_of_gt ht)]
  by_cases hc : (blink_min_dur ≤ now - t ∧ now - t ≤ blink_max_dur) ∧
      ((s.blink_started_attention = some Attention.attentive ∨
          a = Attention.attentive) ∧
        now - s.last_blink_ts > blink_refractory)
  · rw [if_pos hc]
    exact ⟨⟨fun _ => hc, fun _ => ⟨rfl, rfl⟩⟩, fun hn => absurd hc hn,
      rfl, rfl, rfl, rfl, rfl⟩
  · rw [if_neg hc]
    refine ⟨⟨fun hcount => absurd (Nat.succ_ne_self s.blink_count) ?_,
      fun hcond => absurd hcond hc⟩, fun _ => ⟨rfl, rfl⟩, rfl, rfl, rfl, rfl, rfl⟩
    intro hne
    exact hne hcount.1.symm


/-- Witness for C1: eyes closed 0.10 s while attentive at both endpoints,
then reopened, increments `blink_count` by exactly 1. -/
theorem C1_witness :
    exBlinkState.prev_eyes_closed = true ∧ (0 : ℚ) < 10 ∧
    (blinkStep exBlinkState false .attentive (101/10)).blink_count =
      exBlinkState.blink_count + 1 ∧
    (blinkStep exBlinkState false .attentive (101/10)).last_blink_ts = 101/10 := by
  have h := C1_blink_closed_to_open exBlinkState .attentive (101/10) 10 rfl rfl
    (by norm_num)
  have hcond : (blink_min_dur ≤ (101/10 : ℚ) - 10 ∧
      (101/10 : ℚ) - 10 ≤ blink_max_dur) ∧
      ((exBlinkState.blink_started_attention = some Attention.attentive ∨
          Attention.attentive = Attention.attentive) ∧
        (101/10 : ℚ) - exBlinkState.last_blink_ts > blink_refractory) := by
    refine ⟨⟨?_, ?_⟩, Or.inl rfl, ?_⟩ <;>
      norm_num [blink_min_dur, blink_max_dur, blink_refractory, exBlinkState]
  exact ⟨rfl, by norm_num, (h.1.mpr hcond).1, (h.1.mpr hcond).2⟩

/-- Helper: a successful dict lookup is a membership. -/
theorem dictGet_mem {xs : List (ℕ × FaceState)} {k : ℕ} {v : FaceState}
    (h : dictGet xs k = some v) : (k, v) ∈ xs := by
  unfold dictGet at h
  obtain ⟨p, hp, hv⟩ := Option.map_eq_some'.mp h
  have hkey : p.1 = k := by simpa using List.find?_some hp
  have hmem := List.mem_of_find?_eq_some hp
  obtain ⟨a, c⟩ := p
  cases hkey
  cases hv
  exact hmem

/-- Helper: with nodup keys, membership determines the dict lookup. -/
theorem mem_dictGet {xs : List (ℕ × FaceState)} {k : ℕ} {v : FaceState}
    (hnd : (xs.map Prod.fst).Nodup) (h : (k, v) ∈ xs) : dictGet xs k = some v := by
  induction xs with
  | nil => cases h
  | cons p rest ih =>
    rcases List.mem_cons.mp h with hh | ht
    · subst hh
      unfold dictGet
      rw [List.find?_cons_of_pos _ (by simp)]
      rfl
    · have hk : p.1 ≠ k := by
        intro he
        have hmem : k ∈ rest.map Prod.fst := List.mem_map.mpr ⟨(k, v), ht, rfl⟩
        rw [List.map_cons, List.nodup_cons] at hnd
        exact hnd.1 (he ▸ hmem)
      unfold dictGet
      rw [List.find?_cons_of_neg _ (by simpa using hk)]
      have hnd' : (rest.map Prod.fst).Nodup := by
        rw [List.map_cons, List.nodup_cons] at hnd
        exact hnd.2
      exact ih hnd' ht

/-- Helper: a key-preserving per-entry update commutes with dict lookup. -/
theorem dictGet_mapUpdate (xs : List (ℕ × FaceState)) (sid k : ℕ)
    (g : ℕ × FaceState → FaceState) :
    dictGet (xs.map (fun p => if p.1 = sid then (p.1, g p) else p)) k =
      (dictGet xs k).map (fun v => if k = sid then g (k, v) else v) := by
  induction xs with
  | nil => rfl
  | cons p rest ih =>
    obtain ⟨a, c⟩ := p
    rw [List.map_cons]
    by_cases hk : a = k
    · subst hk
      have hup : ((if (a, c).1 = sid then ((a, c).1, g (a, c)) else (a, c))).1 = a := by
        split <;> rfl
      unfold dictGet
      rw [List.find?_cons_of_pos _ (by simpa using hup),
        List.find?_cons_of_pos _ (by simp)]
      by_cases hs : a = sid
      · rw [if_pos (by simpa using hs)]
        simp [hs]
      · rw [if_neg (by simpa using hs)]
        simp [hs]
    · have hup : ¬ ((if (a, c).1 = sid then ((a, c).1, g (a, c)) else (a, c))).1 = k := by
        split <;> simpa using hk
      unfold dictGet at ih ⊢
      rw [List.find?_cons_of_neg _ (by simpa using hup),
        List.find?_cons_of_neg _ (by simpa using hk)]
      exact ih

/-- Helper: a key-preserving per-entry update leaves the key list alone. -/
theorem keys_mapUpdate (xs : List (ℕ × FaceState)) (sid : ℕ)
    (g : ℕ × FaceState → FaceState) :
    (xs.map (fun p => if p.1 = sid then (p.1, g p) else p)).map Prod.fst =
      xs.map Prod.fst := by
  induction xs with
  | nil => rfl
  | cons p rest ih =>
    rw [List.map_cons, List.map_cons, List.map_cons, ih]
    by_cases hs : p.1 = sid <;> simp [hs]

/-- Helper: an absent key looks up to `none`. -/
theorem hasKey_false_dictGet {xs : List (ℕ × FaceState)} {k : ℕ}
    (h : hasKey xs k = false) : dictGet xs k = none := by
  induction xs with
  | nil => rfl
  | cons p rest ih =>
    unfold hasKey at h ih
    rw [List.any_cons] at h
    have h1 : ¬ p.1 = k := by
      intro he
      simp [he] at h
    have h2 : rest.any (fun p => p.1 = k) = false := by
      rcases Bool.or_eq_false_iff.mp h with ⟨_, h2⟩
      exact h2
    unfold dictGet
    rw [List.find?_cons_of_neg _ (by simpa using h1)]
    exact ih h2

/-- Helper: a lookup that succeeds on the prefix ignores a suffix. -/
theorem dictGet_append_left {xs ys : List (ℕ × FaceState)} {k : ℕ} {v : FaceState}
    (h : dictGet xs k = some v) : dictGet (xs ++ ys) k = some v := by
  induction xs with
  | nil => simp [dictGet] at h
  | cons p rest ih =>
    unfold dictGet at h ⊢
    by_cases hk : p.1 = k
    · rw [List.find?_cons_of_pos _ (by simpa using hk)] at h
      rw [List.cons_append, List.find?_cons_of_pos _ (by simpa using hk)]
      exact h
    · rw [List.find?_cons_of_neg _ (by simpa using hk)] at h
      rw [List.cons_append, List.find?_cons_of_neg _ (by simpa using hk)]
      exact ih h

/-- Helper: a lookup that fails on the prefix falls through to the suffix. -/
theorem dictGet_append_right {xs ys : List (ℕ × FaceState)} {k : ℕ}
    (h : dictGet xs k = none) : dictGet (xs ++ ys) k = dictGet ys k := by
  induction xs with
  | nil => rfl
  | cons p rest ih =>
    unfold dictGet at h ⊢
    by_cases hk : p.1 = k
    · rw [List.find?_cons_of_pos _ (by simpa using hk)] at h
      cases h
    · rw [List.find?_cons_of_neg _ (by simpa using hk)] at h
      rw [List.cons_append, List.find?_cons_of_neg _ (by simpa using hk)]
      exact ih h

/-- Helper: with nodup keys, a lookup surviving a filter was the original
lookup. -/
theorem dictGet_filter {xs : List (ℕ × FaceState)} {q : ℕ × FaceState → Bool}
    {k : ℕ} {v : FaceState} (hnd : (xs.map Prod.fst).Nodup)
    (h : dictGet (xs.filter q) k = some v) : dictGet xs k = some v := by
  induction xs with
  | nil => simp [dictGet] at h
  | cons p rest ih =>
    rw [List.map_cons, List.nodup_cons] at hnd
    by_cases hk : p.1 = k
    · by_cases hq : q p = true
      · rw [List.filter_cons_of_pos hq] at h
        unfold dictGet at h ⊢
        rw [List.find?_cons_of_pos _ (by simpa using hk)] at h ⊢
        exact h
      · rw [List.filter_cons_of_neg hq] at h
        have hv := dictGet_mem (ih hnd.2 h)
        have : k ∈ rest.map Prod.fst := List.mem_map.mpr ⟨(k, v), hv, rfl⟩
        exact absurd (hk ▸ this) hnd.1
    · have hres : dictGet (rest.filter q) k = some v := by
        by_cases hq : q p = true
        · rw [List.filter_cons_of_pos hq] at h
          unfold dictGet at h
          rw [List.find?_cons_of_neg _ (by simpa using hk)] at h
          exact h
        · rw [List.filter_cons_of_neg hq] at h
          exact h
      unfold dictGet
      rw [List.find?_cons_of_neg _ (by simpa using hk)]
      exact ih hnd.2 hres

/-- Helper: the best-match fold never lowers the running best IoU, bounds
the IoU of every scanned track, and returns either its accumulator or an
entry of the list. -/
theorem bestMatch_fold (b : Box) (states : List (ℕ × FaceState)) :
    ∀ acc : Option ℕ × ℚ,
      acc.2 ≤ (states.foldl
        (fun acc p =>
          let i := iou b p.2.bbox
          if i > acc.2 then (some p.1, i) else acc) acc).2 ∧
      (∀ p ∈ states, iou b p.2.bbox ≤ (states.foldl
        (fun acc p =>
          let i := iou b p.2.bbox
          if i > acc.2 then (some p.1, i) else acc) acc).2) ∧
      ((states.foldl
          (fun acc p =>
            let i := iou b p.2.bbox
            if i > acc.2 then (some p.1, i) else acc) acc) = acc ∨
        ∃ p ∈ states, (states.foldl
          (fun acc p =>
            let i := iou b p.2.bbox
            if i > acc.2 then (some p.1, i) else acc) acc) =
            (some p.1, iou b p.2.bbox)) := by
  induction states with
  | nil => exact fun acc => ⟨le_refl _, by simp, Or.inl rfl⟩
  | cons p rest ih =>
    intro acc
    rw [List.foldl_cons]
    by_cases hstep : iou b p.2.bbox > acc.2
    · simp only [hstep, if_pos]
      obtain ⟨ih1, ih2, ih3⟩ := ih (some p.1, iou b p.2.bbox)
      refine ⟨le_trans (le_of_lt hstep) ih1, ?_, ?_⟩
      · intro q hq
        rcases List.mem_cons.mp hq with hh | ht
        · exact hh ▸ ih1
        · exact ih2 q ht
      · rcases ih3 with heq | ⟨q, hq, heq⟩
        · exact Or.inr ⟨p, List.mem_cons_self p rest, heq⟩
        · exact Or.inr ⟨q, List.mem_cons_of_mem p hq, heq⟩
    · simp only [hstep, if_neg, if_false]
      obtain ⟨ih1, ih2, ih3⟩ := ih acc
      refine ⟨ih1, ?_, ?_⟩
      · intro q hq
        rcases List.mem_cons.mp hq with hh | ht
        · exact hh ▸ le_trans (le_of_not_lt hstep) ih1
        · exact ih2 q ht
      · rcases ih3 with heq | ⟨q, hq, heq⟩
        · exact Or.inl heq
        · exact Or.inr ⟨q, List.mem_cons_of_mem p hq, heq⟩

/-- Helper: `bestMatch` bounds every track's IoU and is `(None, 0.0)` or
an entry of the track list. -/
theorem bestMatch_spec (b : Box) (states : List (ℕ × FaceState)) :
    (∀ p ∈ states, iou b p.2.bbox ≤ (bestMatch states b).2) ∧
    (bestMatch states b = (none, 0) ∨
      ∃ p ∈ states, bestMatch states b = (some p.1, iou b p.2.bbox)) := by
  have h := bestMatch_fold b states (none, 0)
  exact ⟨h.2.1, h.2.2⟩

/-- Helper: the blink machine never lowers `blink_count` and leaves
`yawn_count` and `last_seen` alone. -/
theorem blinkStep_counts (s : FaceState) (e : Bool) (a : Attention) (n : ℚ) :
    s.blink_count ≤ (blinkStep s e a n).blink_count ∧
    (blinkStep s e a n).yawn_count = s.yawn_count ∧
    (blinkStep s e a n).last_seen = s.last_seen := by
  unfold blinkStep
  dsimp only
  repeat' split
  all_goals simp [Nat.le_succ]

/-- Helper: the yawn machine never lowers `yawn_count` and leaves
`blink_count` and `last_seen` alone. -/
theorem yawnStep_counts (s : FaceState) (mo : Bool) (a : Attention) (n : ℚ) :
    s.yawn_count ≤ (yawnStep s mo a n).yawn_count ∧
    (yawnStep s mo a n).blink_count = s.blink_count ∧
    (yawnStep s mo a n).last_seen = s.last_seen := by
  unfold yawnStep
  dsimp only
  repeat' split
  all_goals simp [Nat.le_succ]

/-- Helper: pose smoothing and attention classification leave the event
counters and `last_seen` alone. -/
theorem poseAttnUpdate_counts (s : FaceState) (m : Measurement) :
    (poseAttnUpdate s m).1.blink_count = s.blink_count ∧
    (poseAttnUpdate s m).1.yawn_count = s.yawn_count ∧
    (poseAttnUpdate s m).1.last_seen = s.last_seen := by
  unfold poseAttnUpdate
  dsimp only
  repeat' split
  all_goals simp

/-- Helper: the per-track frame update never lowers either counter and
leaves `last_seen` alone. -/
theorem detUpdate_counts (s : FaceState) (m : Measurement) (n : ℚ) :
    s.blink_count ≤ (detUpdate s m n).blink_count ∧
    s.yawn_count ≤ (detUpdate s m n).yawn_count ∧
    (detUpdate s m n).last_seen = s.last_seen := by
  unfold detUpdate
  dsimp only
  obtain ⟨hpb, hpy, hps⟩ := poseAttnUpdate_counts s m
  obtain ⟨hbb, hby, hbs⟩ := blinkStep_counts (poseAttnUpdate s m).1
    (!m.left_open && !m.right_open) (poseAttnUpdate s m).2 n
  obtain ⟨hyy, hyb, hys⟩ := yawnStep_counts
    (blinkStep (poseAttnUpdate s m).1 (!m.left_open && !m.right_open)
      (poseAttnUpdate s m).2 n) m.mouth_open (poseAttnUpdate s m).2 n
  refine ⟨?_, ?_, ?_⟩
  · rw [hyb]
    exact le_trans (le_of_eq hpb.symm) hbb
  · rw [← hpy, ← hby]
    exact hyy
  · rw [hys, hbs, hps]

/-- Helper: `associate` either accepts the best match (when its IoU
exceeds the threshold), updating that track's bbox and last-seen, or
creates a fresh track under the next sequential id. -/
theorem associate_cases (st : AnalyzerState) (b : Box) (ts : ℚ) :
    (∃ sid, (bestMatch st.states b).1 = some sid ∧
        (bestMatch st.states b).2 > iou_accept_threshold ∧
        associate st b ts = (sid,
          { st with states :=
              st.states.map (fun p => if p.1 = sid then
                (p.1, { p.2 with bbox := b, last_seen := ts }) else p) })) ∨
    (((bestMatch st.states b).1 = none ∨
        (bestMatch st.states b).2 ≤ iou_accept_threshold) ∧
      associate st b ts = (st.next_state_id,
        { states := dictSet st.states st.next_state_id
            { bbox := b, id := some st.next_state_id, last_seen := ts }
          next_state_id := st.next_state_id + 1 })) := by
  unfold associate
  dsimp only
  cases h1 : (bestMatch st.states b).1 with
  | none => exact Or.inr ⟨Or.inl rfl, rfl⟩
  | some sid =>
    by_cases hq : (bestMatch st.states b).2 > iou_accept_threshold
    · exact Or.inl ⟨sid, rfl, hq, by dsimp only; rw [if_pos hq]⟩
    · exact Or.inr ⟨Or.inr (le_of_not_lt hq), by dsimp only; rw [if_neg hq]⟩

/-- Helper: the next sequential id is never an existing key. -/
theorem hasKey_fresh (st : AnalyzerState)
    (hlt : ∀ p ∈ st.states, p.1 < st.next_state_id) :
    hasKey st.states st.next_state_id = false := by
  unfold hasKey
  rw [List.any_eq_false]
  intro p hp
  have := hlt p hp
  simp only [decide_eq_true_eq]
  omega


/-- Helper: a pointwise state property survives a key-preserving map
update whenever the updated values also satisfy it. -/
theorem forall_mem_mapUpdate {P : FaceState → Prop}
    {xs : List (ℕ × FaceState)} (sid : ℕ) (g : ℕ × FaceState → FaceState)
    (hxs : ∀ p ∈ xs, P p.2) (hg : ∀ p ∈ xs, P (g p)) :
    ∀ p ∈ xs.map (fun r => if r.1 = sid then (r.1, g r) else r), P p.2 := by
  intro p hp
  obtain ⟨q, hq, hpq⟩ := List.mem_map.mp hp
  rw [← hpq]
  by_cases hs : q.1 = sid
  · rw [if_pos hs]
    exact hg q hq
  · rw [if_neg hs]
    exact hxs q hq

/-- Helper: a pointwise key property survives a key-preserving map
update. -/
theorem forall_key_mapUpdate {Q : ℕ → Prop}
    {xs : List (ℕ × FaceState)} (sid : ℕ) (g : ℕ × FaceState → FaceState)
    (hxs : ∀ p ∈ xs, Q p.1) :
    ∀ p ∈ xs.map (fun r => if r.1 = sid then (r.1, g r) else r), Q p.1 := by
  intro p hp
  obtain ⟨q, hq, hpq⟩ := List.mem_map.mp hp
  rw [← hpq]
  by_cases hs : q.1 = sid
  · rw [if_pos hs]
    exact hxs q hq
  · rw [if_neg hs]
    exact hxs q hq

/-- Helper: one detection-loop iteration preserves the key invariants,
never shrinks the id counter, never lowers any existing track's counters,
and keeps every track's last-seen truthy when the frame time is. -/
theorem processDetection_tracks (st : AnalyzerState) (m : Measurement) (ts : ℚ)
    (hlt : ∀ p ∈ st.states, p.1 < st.next_state_id)
    (hnd : (st.states.map Prod.fst).Nodup) :
    (∀ p ∈ (processDetection st m ts).states,
        p.1 < (processDetection st m ts).next_state_id) ∧
    ((processDetection st m ts).states.map Prod.fst).Nodup ∧
    st.next_state_id ≤ (processDetection st m ts).next_state_id ∧
    (∀ k v, dictGet st.states k = some v →
      ∃ v', dictGet (processDetection st m ts).states k = some v' ∧
        v.blink_count ≤ v'.blink_count ∧ v.yawn_count ≤ v'.yawn_count) ∧
    (ts ≠ 0 → (∀ p ∈ st.states, p.2.last_seen ≠ 0) →
      ∀ p ∈ (processDetection st m ts).states, p.2.last_seen ≠ 0) := by
  cases hbb : m.bbox with
  | none =>
    have heq : processDetection st m ts = st := by
      unfold processDetection
      rw [hbb]
    rw [heq]
    exact ⟨hlt, hnd, le_refl _, fun k v h => ⟨v, h, le_refl _, le_refl _⟩,
      fun _ h => h⟩
  | some b =>
    have heq : processDetection st m ts =
        { (associate st b ts).2 with states :=
            (associate st b ts).2.states.map (fun p =>
              if p.1 = (associate st b ts).1 then (p.1, detUpdate p.2 m ts)
              else p) } := by
      unfold processDetection
      rw [hbb]
    rcases associate_cases st b ts with ⟨sid, _, _, hassoc⟩ | ⟨_, hassoc⟩
    · -- match accepted: bbox/last-seen update, then the per-track update
      rw [hassoc] at heq
      dsimp only at heq
      rw [heq]
      dsimp only
      refine ⟨?_, ?_, le_refl _, ?_, ?_⟩
      · exact forall_key_mapUpdate (Q := fun k => k < st.next_state_id) sid _
          (forall_key_mapUpdate (Q := fun k => k < st.next_state_id) sid _ hlt)
      · rw [keys_mapUpdate, keys_mapUpdate]
        exact hnd
      · intro k v h
        rw [dictGet_mapUpdate, dictGet_mapUpdate, h]
        simp only [Option.map_some']
        by_cases hk : k = sid
        · simp only [if_pos hk]
          exact ⟨_, rfl,
            (detUpdate_counts { v with bbox := b, last_seen := ts } m ts).1,
            (detUpdate_counts { v with bbox := b, last_seen := ts } m ts).2.1⟩
        · simp only [if_neg hk]
          exact ⟨v, rfl, le_refl _, le_refl _⟩
      · intro hts hlast
        have hys := forall_mem_mapUpdate (P := fun s => s.last_seen ≠ 0) sid
          (fun r => { r.2 with bbox := b, last_seen := ts }) hlast
          (fun _ _ => hts)
        exact forall_mem_mapUpdate (P := fun s => s.last_seen ≠ 0) sid
          (fun r => detUpdate r.2 m ts) hys
          (fun p hp => by
            have hls := (detUpdate_counts p.2 m ts).2.2
            show (detUpdate p.2 m ts).last_seen ≠ 0
            rw [hls]
            exact hys p hp)
    · -- no acceptable match: a fresh zeroed track under the next id
      rw [hassoc] at heq
      dsimp only at heq
      have hfresh := hasKey_fresh st hlt
      have hset : dictSet st.states st.next_state_id
          { bbox := b, id := some st.next_state_id, last_seen := ts } =
          st.states ++ [(st.next_state_id,
            { bbox := b, id := some st.next_state_id, last_seen := ts })] := by
        unfold dictSet
        rw [if_neg (by rw [hfresh]; exact Bool.false_ne_true)]
      rw [hset] at heq
      rw [heq]
      dsimp only
      have happkeys : ∀ p ∈ st.states ++
          [(st.next_state_id,
            ({ bbox := b, id := some st.next_state_id, last_seen := ts } : FaceState))],
          p.1 < st.next_state_id + 1 := by
        intro p hp
        rcases List.mem_append.mp hp with hq1 | hq2
        · exact Nat.lt_succ_of_lt (hlt p hq1)
        · rw [List.mem_singleton.mp hq2]
          exact Nat.lt_succ_self _
      refine ⟨?_, ?_, Nat.le_succ _, ?_, ?_⟩
      · exact forall_key_mapUpdate (Q := fun k => k < st.next_state_id + 1) _ _
          happkeys
      · rw [keys_mapUpdate, List.map_append, List.map_singleton]
        rw [List.nodup_append]
        refine ⟨hnd, List.nodup_singleton _, ?_⟩
        intro k hk1 hk2
        obtain ⟨q, hq, hkq⟩ := List.mem_map.mp hk1
        rw [List.mem_singleton] at hk2
        have := hlt q hq
        omega
      · intro k v h
        have hkmem : (k, v) ∈ st.states := dictGet_mem h
        have hklt : k < st.next_state_id := hlt (k, v) hkmem
        rw [dictGet_mapUpdate, dictGet_append_left h]
        simp only [Option.map_some']
        simp only [if_neg (Nat.ne_of_lt hklt)]
        exact ⟨v, rfl, le_refl _, le_refl _⟩
      · intro hts hlast
        have happ : ∀ p ∈ st.states ++
            [(st.next_state_id,
              ({ bbox := b, id := some st.next_state_id, last_seen := ts } : FaceState))],
            p.2.last_seen ≠ 0 := by
          intro p hp
          rcases List.mem_append.mp hp with hq1 | hq2
          · exact hlast p hq1
          · rw [List.mem_singleton.mp hq2]
            exact hts
        exact forall_mem_mapUpdate (P := fun s => s.last_seen ≠ 0) _
          (fun r => detUpdate r.2 m ts) happ
          (fun p hp => by
            have hls := (detUpdate_counts p.2 m ts).2.2
            show (detUpdate p.2 m ts).last_seen ≠ 0
            rw [hls]
            exact happ p hp)

/-- Helper: the detection loop of one frame preserves the key invariants,
never lowers any pre-existing track's counters, and keeps last-seen truthy. -/
theorem foldDetections_tracks (dets : List Measurement) (ts : ℚ) :
    ∀ st : AnalyzerState,
      (∀ p ∈ st.states, p.1 < st.next_state_id) →
      (st.states.map Prod.fst).Nodup →
      (∀ p ∈ (dets.foldl (fun st m => processDetection st m ts) st).states,
          p.1 < (dets.foldl (fun st m => processDetection st m ts) st).next_state_id) ∧
      ((dets.foldl (fun st m => processDetection st m ts) st).states.map Prod.fst).Nodup ∧
      (∀ k v, dictGet st.states k = some v →
        ∃ v', dictGet (dets.foldl (fun st m => processDetection st m ts) st).states k
            = some v' ∧
          v.blink_count ≤ v'.blink_count ∧ v.yawn_count ≤ v'.yawn_count) ∧
      (ts ≠ 0 → (∀ p ∈ st.states, p.2.last_seen ≠ 0) →
        ∀ p ∈ (dets.foldl (fun st m => processDetection st m ts) st).states,
          p.2.last_seen ≠ 0) := by
  induction dets with
  | nil =>
    intro st h1 h2
    exact ⟨h1, h2, fun k v h => ⟨v, h, le_refl _, le_refl _⟩, fun _ h => h⟩
  | cons m rest ih =>
    intro st h1 h2
    rw [List.foldl_cons]
    obtain ⟨p1, p2, _, p4, p5⟩ := processDetection_tracks st m ts h1 h2
    obtain ⟨q1, q2, q3, q4⟩ := ih (processDetection st m ts) p1 p2
    refine ⟨q1, q2, ?_, ?_⟩
    · intro k v h
      obtain ⟨v1, hv1, hb1, hy1⟩ := p4 k v h
      obtain ⟨v2, hv2, hb2, hy2⟩ := q3 k v1 hv1
      exact ⟨v2, hv2, le_trans hb1 hb2, le_trans hy1 hy2⟩
    · intro hts hlast
      exact q4 hts (p5 hts hlast)

/-- C2: for every live track, across every frame update performed by
`analyze_frame`, `blink_count` and `yawn_count` never decrease: a track
present under key `k` before and after the call has counters at least as
large afterwards. -/
theorem C2_counts_monotone (st : AnalyzerState) (dets : List Measurement)
    (ts : ℚ) (k : ℕ) (s s' : FaceState)
    (hlt : ∀ p ∈ st.states, p.1 < st.next_state_id)
    (hnd : (st.states.map Prod.fst).Nodup)
    (hs : dictGet st.states k = some s)
    (hs' : dictGet (analyzeFrame st dets ts).states k = some s') :
    s.blink_count ≤ s'.blink_count ∧ s.yawn_count ≤ s'.yawn_count := by
  by_cases hempty : dets.isEmpty
  · unfold analyzeFrame at hs'
    rw [if_pos hempty] at hs'
    rw [hs] at hs'
    cases hs'
    exact ⟨le_refl _, le_refl _⟩
  · unfold analyzeFrame at hs'
    rw [if_neg hempty] at hs'
    obtain ⟨f1, f2, f3, f4⟩ := foldDetections_tracks dets ts st hlt hnd
    have hpre : dictGet
        (dets.foldl (fun st m => processDetection st m ts) st).states k
        = some s' := by
      unfold pruneStates at hs'
      exact dictGet_filter f2 hs'
    obtain ⟨v', hv', hb, hy⟩ := f3 k s hs
    rw [hpre] at hv'
    cases hv'
    exact ⟨hb, hy⟩

/-- C3 counterexample: a call to `analyze_frame` with an empty detection
list returns before the prune sweep (line 162-163), so a track 9 seconds
stale survives the call. -/
theorem C3_counterexample :
    analyzeFrame exStaleState [] 10 = exStaleState ∧
    dictGet (analyzeFrame exStaleState [] 10).states 0 =
      some { bbox := ⟨0, 0, 10, 10⟩, last_seen := 1 } ∧
    (10 : ℚ) - (1 : ℚ) > 2 :=
  ⟨rfl, rfl, by norm_num⟩

/-- C3 (amended): after every call to `analyze_frame` whose detection list
is non-empty, no track more than 2.0 s behind the frame timestamp remains
in the track map; a call with an empty detection list returns early,
before the prune sweep. -/
theorem C3_prune_nonempty (st : AnalyzerState) (dets : List Measurement)
    (ts : ℚ) (hne : dets ≠ [])
    (hlt : ∀ p ∈ st.states, p.1 < st.next_state_id)
    (hnd : (st.states.map Prod.fst).Nodup)
    (hlast : ∀ p ∈ st.states, p.2.last_seen ≠ 0)
    (hts : ts ≠ 0) :
    ∀ p ∈ (analyzeFrame st dets ts).states, ts - p.2.last_seen ≤ 2 := by
  unfold analyzeFrame
  rw [if_neg (by simpa using hne)]
  intro p hp
  unfold pruneStates at hp
  dsimp only at hp
  rw [List.mem_filter] at hp
  obtain ⟨hmem, hcond⟩ := hp
  simp only [decide_eq_true_eq, not_and, not_lt] at hcond
  apply hcond
  obtain ⟨_, _, _, f4⟩ := foldDetections_tracks dets ts st hlt hnd
  exact f4 hts hlast p hmem

/-- Witness for C2 at a concrete state and frame: the tracked face's
counters do not decrease across the call. -/
theorem C2_witness :
    ∃ s s' : FaceState,
      dictGet exStaleState.states 0 = some s ∧
      dictGet (analyzeFrame exStaleState [] 2).states 0 = some s' ∧
      s.blink_count ≤ s'.blink_count ∧ s.yawn_count ≤ s'.yawn_count := by
  have hs : dictGet exStaleState.states 0 =
      some { bbox := ⟨0, 0, 10, 10⟩, last_seen := 1 } := rfl
  have hs' : dictGet (analyzeFrame exStaleState [] 2).states 0 =
      some { bbox := ⟨0, 0, 10, 10⟩, last_seen := 1 } := rfl
  exact ⟨_, _, hs, hs',
    C2_counts_monotone exStaleState [] 2 0 _ _ (by decide) (by decide) hs hs'⟩

/-- Witness for C3 at a concrete state and frame: after a non-empty call,
no track more than 2 s stale remains. -/
theorem C3_witness :
    ([exNoBoxMeasurement] : List Measurement) ≠ [] ∧
    (∀ p ∈ (analyzeFrame exTwoTrackState [exNoBoxMeasurement] 10).states,
      (10 : ℚ) - p.2.last_seen ≤ 2) :=
  ⟨by decide,
    C3_prune_nonempty exTwoTrackState [exNoBoxMeasurement] 10
      (by decide) (by decide) (by decide) (by decide) (by norm_num)⟩

/-- C6: the association IoU is 1 on any box of positive area against
itself, 0 on disjoint boxes, and 0 when either area is degenerate; a
detection is matched to the live track of maximum IoU only when that
maximum exceeds 0.35 (its bbox and last-seen are then updated), and
otherwise a brand-new track with the next sequential id and zeroed
counters is created. -/
theorem C6_iou_and_association (st : AnalyzerState) (b : Box) (ts : ℚ)
    (hlt : ∀ p ∈ st.states, p.1 < st.next_state_id)
    (hnd : (st.states.map Prod.fst).Nodup) :
    (∀ a : Box, 0 < boxArea a → iou a a = 1) ∧
    (∀ a c : Box,
      (min a.x2 c.x2 ≤ max a.x1 c.x1 ∨ min a.y2 c.y2 ≤ max a.y1 c.y1) →
      iou a c = 0) ∧
    (∀ a c : Box, boxArea a = 0 ∨ boxArea c = 0 → iou a c = 0) ∧
    ((∃ p ∈ st.states, iou_accept_threshold < iou b p.2.bbox) →
      ∃ sid s, dictGet st.states sid = some s ∧
        iou_accept_threshold < iou b s.bbox ∧
        (∀ p ∈ st.states, iou b p.2.bbox ≤ iou b s.bbox) ∧
        (associate st b ts).1 = sid ∧
        (associate st b ts).2.next_state_id = st.next_state_id ∧
        dictGet (associate st b ts).2.states sid =
          some { s with bbox := b, last_seen := ts }) ∧
    ((∀ p ∈ st.states, iou b p.2.bbox ≤ iou_accept_threshold) →
      (associate st b ts).1 = st.next_state_id ∧
      (associate st b ts).2.next_state_id = st.next_state_id + 1 ∧
      dictGet (associate st b ts).2.states st.next_state_id =
        some { bbox := b, id := some st.next_state_id, last_seen := ts } ∧
      ({ bbox := b, id := some st.next_state_id, last_seen := ts } : FaceState).blink_count = 0 ∧
      ({ bbox := b, id := some st.next_state_id, last_seen := ts } : FaceState).yawn_count = 0) := by
  have hinter_le : ∀ a c : Box,
      max 0 (min a.x2 c.x2 - max a.x1 c.x1) *
        max 0 (min a.y2 c.y2 - max a.y1 c.y1) ≤ boxArea a := by
    intro a c
    unfold boxArea
    have hx : max 0 (min a.x2 c.x2 - max a.x1 c.x1) ≤ max 0 (a.x2 - a.x1) :=
      max_le_max le_rfl (sub_le_sub (min_le_left _ _) (le_max_left _ _))
    have hy : max 0 (min a.y2 c.y2 - max a.y1 c.y1) ≤ max 0 (a.y2 - a.y1) :=
      max_le_max le_rfl (sub_le_sub (min_le_left _ _) (le_max_left _ _))
    exact mul_le_mul hx hy (le_max_left _ _) (le_max_left _ _)
  have hinter_le' : ∀ a c : Box,
      max 0 (min a.x2 c.x2 - max a.x1 c.x1) *
        max 0 (min a.y2 c.y2 - max a.y1 c.y1) ≤ boxArea c := by
    intro a c
    unfold boxArea
    have hx : max 0 (min a.x2 c.x2 - max a.x1 c.x1) ≤ max 0 (c.x2 - c.x1) :=
      max_le_max le_rfl (sub_le_sub (min_le_right _ _) (le_max_right _ _))
    have hy : max 0 (min a.y2 c.y2 - max a.y1 c.y1) ≤ max 0 (c.y2 - c.y1) :=
      max_le_max le_rfl (sub_le_sub (min_le_right _ _) (le_max_right _ _))
    exact mul_le_mul hx hy (le_max_left _ _) (le_max_left _ _)
  refine ⟨?_, ?_, ?_, ?_, ?_⟩
  · -- reflexivity on a box of positive area
    intro a ha
    unfold iou
    dsimp only
    rw [min_self, min_self, max_self, max_self]
    have hA : max 0 (a.x2 - a.x1) * max 0 (a.y2 - a.y1) = boxArea a := rfl
    rw [hA, add_sub_cancel_right]
    rw [if_neg (not_le.mpr ha)]
    exact div_self (ne_of_gt ha)
  · -- disjoint boxes
    intro a c h
    unfold iou
    dsimp only
    have hzero : max 0 (min a.x2 c.x2 - max a.x1 c.x1) *
        max 0 (min a.y2 c.y2 - max a.y1 c.y1) = 0 := by
      rcases h with h | h
      · rw [max_eq_left (by linarith : min a.x2 c.x2 - max a.x1 c.x1 ≤ 0)]
        exact zero_mul _
      · rw [max_eq_left (by linarith : min a.y2 c.y2 - max a.y1 c.y1 ≤ 0)]
        exact mul_zero _
    rw [hzero]
    split
    · rfl
    · exact zero_div _
  · -- degenerate areas
    intro a c h
    unfold iou
    dsimp only
    have hnn : 0 ≤ max 0 (min a.x2 c.x2 - max a.x1 c.x1) *
        max 0 (min a.y2 c.y2 - max a.y1 c.y1) :=
      mul_nonneg (le_max_left _ _) (le_max_left _ _)
    have hzero : max 0 (min a.x2 c.x2 - max a.x1 c.x1) *
        max 0 (min a.y2 c.y2 - max a.y1 c.y1) = 0 := by
      rcases h with h | h
      · exact le_antisymm (h ▸ hinter_le a c) hnn
      · exact le_antisymm (h ▸ hinter_le' a c) hnn
    rw [hzero]
    split
    · rfl
    · exact zero_div _
  · -- an above-threshold track exists: the maximum-IoU track is matched
    intro ⟨p0, hp0, hgt⟩
    obtain ⟨hub, hcase⟩ := bestMatch_spec b st.states
    have hbm2 : iou_accept_threshold < (bestMatch st.states b).2 :=
      lt_of_lt_of_le hgt (hub p0 hp0)
    rcases hcase with hnone | ⟨q, hq, hbm⟩
    · rw [hnone] at hbm2
      norm_num [iou_accept_threshold] at hbm2
    · have hq2 : (bestMatch st.states b).2 = iou b q.2.bbox := by rw [hbm]
      rcases associate_cases st b ts with ⟨sid, hbm1, _, hassoc⟩ | ⟨hout, hassoc⟩
      · have hsid : sid = q.1 := by
          rw [hbm] at hbm1
          exact (Option.some_injective _ hbm1).symm
        subst hsid
        refine ⟨q.1, q.2, mem_dictGet hnd hq, ?_, ?_, ?_, ?_, ?_⟩
        · rw [← hq2]
          exact hbm2
        · intro p hp
          rw [← hq2]
          exact hub p hp
        · rw [hassoc]
        · rw [hassoc]
        · rw [hassoc]
          dsimp only
          rw [dictGet_mapUpdate, mem_dictGet hnd hq]
          simp only [Option.map_some', if_pos]
      · rcases hout with h1 | h2
        · rw [hbm] at h1
          cases h1
        · exact absurd hbm2 (not_lt.mpr h2)
  · -- no track above threshold: a fresh zeroed track under the next id
    intro hall
    rcases associate_cases st b ts with ⟨sid, hbm1, hbm2, _⟩ | ⟨_, hassoc⟩
    · obtain ⟨hub, hcase⟩ := bestMatch_spec b st.states
      rcases hcase with hnone | ⟨q, hq, hbm⟩
      · rw [hnone] at hbm1
        cases hbm1
      · have : (bestMatch st.states b).2 ≤ iou_accept_threshold := by
          rw [hbm]
          exact hall q hq
        exact absurd hbm2 (not_lt.mpr this)
    · have hfresh := hasKey_fresh st hlt
      refine ⟨by rw [hassoc], by rw [hassoc], ?_, rfl, rfl⟩
      rw [hassoc]
      dsimp only
      unfold dictSet
      rw [if_neg (by rw [hfresh]; exact Bool.false_ne_true)]
      rw [dictGet_append_right (hasKey_false_dictGet hfresh)]
      unfold dictGet
      rw [List.find?_cons_of_pos _ (by simp)]
      rfl

/-- Witness for C6: a 10×10 box has IoU 1 with itself, and a detection
with no acceptable match spawns track id 0 with zeroed counters. -/
theorem C6_witness :
    (0 : ℚ) < boxArea ⟨0, 0, 10, 10⟩ ∧
    iou ⟨0, 0, 10, 10⟩ ⟨0, 0, 10, 10⟩ = 1 ∧
    (associate exEmptyAssocState ⟨0, 0, 10, 10⟩ 5).1 = 0 ∧
    (associate exEmptyAssocState ⟨0, 0, 10, 10⟩ 5).2.next_state_id = 1 ∧
    dictGet (associate exEmptyAssocState ⟨0, 0, 10, 10⟩ 5).2.states 0 =
      some { bbox := ⟨0, 0, 10, 10⟩, id := some 0, last_seen := 5 } := by
  have harea : (0 : ℚ) < boxArea ⟨0, 0, 10, 10⟩ := by
    unfold boxArea
    norm_num
  have h := C6_iou_and_association exEmptyAssocState ⟨0, 0, 10, 10⟩ 5
    (by decide) (by decide)
  obtain ⟨h5a, h5b, h5c, _, _⟩ := h.2.2.2.2 (by intro p hp; cases hp)
  exact ⟨harea, h.1 _ harea, h5a, h5b, h5c⟩
